import Mathlib

/-!
Verification of the rp6502 emulator core (RIA / PIX / VGA pipeline).

Definitions in this file are shallow embeddings of the Rust sources in
`emu/src/`: bytes and machine words are `Nat` with explicit `% 2^w`
truncation where the Rust types wrap, register files and memories are
`Nat → Nat` maps, and channel sends are collected into explicit event
lists.  Each theorem states one claim about the program.
-/

set_option maxRecDepth 4000
set_option maxHeartbeats 1000000

/-! ## PIX packing (emu/src/pix.rs) -/

/-- Events sent from RIA to VGA over the PIX channel (pix.rs `PixEvent`);
the two payload structs `XramWrite` and `PixRegWrite` are inlined. -/
inductive PixEvent where
  | Xram (addr data : Nat)
  | Reg (channel register value : Nat)
  | FrameSync
deriving DecidableEq, Repr

/-- Backchannel messages from VGA to RIA (pix.rs `Backchannel`). -/
inductive Backchannel where
  | Vsync (frame : Nat)
  | Ack
  | Nak
deriving DecidableEq, Repr

/-- pix.rs `pix_pack`: pack a PIX message into the 32-bit hardware format.
Arguments are the u8/u16 field values; the one shift whose result can
exceed 32 bits for an arbitrary u8 (`(device as u32) << 29`) is truncated
mod 2^32 exactly as the Rust `u32` shift does. -/
def pix_pack (device channel register value : Nat) : Nat :=
  0x10000000
    ||| (device <<< 29) % 2 ^ 32
    ||| (channel <<< 24)
    ||| (register <<< 16)
    ||| value

/-- pix.rs `pix_unpack`: unpack a 32-bit PIX message, `none` when the
framing bit is clear. -/
def pix_unpack (raw : Nat) : Option (Nat × Nat × Nat × Nat) :=
  if raw &&& 0x10000000 = 0 then
    none
  else
    some ((raw >>> 29) &&& 0x7, (raw >>> 24) &&& 0xF, (raw >>> 16) &&& 0xFF, raw &&& 0xFFFF)

theorem pix_pack_eq_add (d c r v : Nat) (hd : d < 8) (hc : c < 16)
    (hr : r < 256) (hv : v < 65536) :
    pix_pack d c r v = 2 ^ 29 * d + 2 ^ 28 + 2 ^ 24 * c + 2 ^ 16 * r + v := by
  have hshift : ∀ x n : Nat, x <<< n = 2 ^ n * x := by
    intro x n
    rw [Nat.shiftLeft_eq, Nat.mul_comm]
  have hd29 : (d <<< 29) % 2 ^ 32 = 2 ^ 29 * d := by
    rw [hshift]
    exact Nat.mod_eq_of_lt (by omega)
  have h1 : 0x10000000 ||| (d <<< 29) % 2 ^ 32 = 2 ^ 29 * d + 2 ^ 28 := by
    rw [hd29, Nat.lor_comm]
    exact (Nat.mul_add_lt_is_or (by norm_num) d).symm
  have h2 : 2 ^ 29 * d + 2 ^ 28 ||| c <<< 24 = 2 ^ 29 * d + 2 ^ 28 + 2 ^ 24 * c := by
    have hrw : 2 ^ 29 * d + 2 ^ 28 = 2 ^ 28 * (2 * d + 1) := by ring
    rw [hshift, hrw, ← Nat.mul_add_lt_is_or (by omega) (2 * d + 1)]
  have h3 : 2 ^ 29 * d + 2 ^ 28 + 2 ^ 24 * c ||| r <<< 16
      = 2 ^ 29 * d + 2 ^ 28 + 2 ^ 24 * c + 2 ^ 16 * r := by
    have hrw : 2 ^ 29 * d + 2 ^ 28 + 2 ^ 24 * c = 2 ^ 24 * (2 ^ 5 * d + 2 ^ 4 + c) := by ring
    rw [hshift, hrw, ← Nat.mul_add_lt_is_or (by omega) (2 ^ 5 * d + 2 ^ 4 + c)]
  have h4 : 2 ^ 29 * d + 2 ^ 28 + 2 ^ 24 * c + 2 ^ 16 * r ||| v
      = 2 ^ 29 * d + 2 ^ 28 + 2 ^ 24 * c + 2 ^ 16 * r + v := by
    have hrw : 2 ^ 29 * d + 2 ^ 28 + 2 ^ 24 * c + 2 ^ 16 * r
        = 2 ^ 16 * (2 ^ 13 * d + 2 ^ 12 + 2 ^ 8 * c + r) := by ring
    rw [hrw, ← Nat.mul_add_lt_is_or (by omega) (2 ^ 13 * d + 2 ^ 12 + 2 ^ 8 * c + r)]
  unfold pix_pack
  rw [h1, h2, h3, h4]

/-- C8: for all in-range PIX fields (`d < 8`, `c < 16`, u8 register,
u16 value), unpacking the packed word recovers exactly the fields, and
the packed word always has framing bit 28 set. -/
theorem C8_pix_pack_unpack_roundtrip (d c r v : Nat) (hd : d < 8) (hc : c < 16)
    (hr : r < 256) (hv : v < 65536) :
    pix_unpack (pix_pack d c r v) = some (d, c, r, v) ∧
      (pix_pack d c r v) &&& 0x10000000 ≠ 0 := by
  have heq := pix_pack_eq_add d c r v hd hc hr hv
  have hmask : ∀ x k : Nat, x &&& 2 ^ k - 1 = x % 2 ^ k := fun x k =>
    Nat.and_pow_two_sub_one_eq_mod x k
  have hdiv : ∀ x k : Nat, x >>> k = x / 2 ^ k := fun x k =>
    Nat.shiftRight_eq_div_pow x k
  have hframe : (pix_pack d c r v) &&& 0x10000000 ≠ 0 := by
    rw [heq]
    have h28 : (2 ^ 29 * d + 2 ^ 28 + 2 ^ 24 * c + 2 ^ 16 * r + v) &&& 0x10000000
        = (Nat.testBit (2 ^ 29 * d + 2 ^ 28 + 2 ^ 24 * c + 2 ^ 16 * r + v) 28).toNat
            * 2 ^ 28 := by
      exact Nat.and_two_pow _ 28
    rw [h28]
    have hbit : Nat.testBit (2 ^ 29 * d + 2 ^ 28 + 2 ^ 24 * c + 2 ^ 16 * r + v) 28 = true := by
      rw [Nat.testBit_to_div_mod]
      have hlow : 2 ^ 24 * c + 2 ^ 16 * r + v < 2 ^ 28 := by omega
      have : (2 ^ 29 * d + 2 ^ 28 + 2 ^ 24 * c + 2 ^ 16 * r + v) / 2 ^ 28 = 2 * d + 1 := by
        have hrw : 2 ^ 29 * d + 2 ^ 28 + 2 ^ 24 * c + 2 ^ 16 * r + v
            = 2 ^ 28 * (2 * d + 1) + (2 ^ 24 * c + 2 ^ 16 * r + v) := by ring
        rw [hrw, Nat.mul_add_div (by norm_num), Nat.div_eq_of_lt hlow]
      simp [this]
      omega
    rw [hbit]
    simp
  refine ⟨?_, hframe⟩
  unfold pix_unpack
  rw [if_neg hframe]
  have hdev : (pix_pack d c r v >>> 29) &&& 0x7 = d := by
    rw [heq, hdiv]
    have hq : (2 ^ 29 * d + 2 ^ 28 + 2 ^ 24 * c + 2 ^ 16 * r + v) / 2 ^ 29 = d := by
      have hrw : 2 ^ 29 * d + 2 ^ 28 + 2 ^ 24 * c + 2 ^ 16 * r + v
          = 2 ^ 29 * d + (2 ^ 28 + 2 ^ 24 * c + 2 ^ 16 * r + v) := by ring
      rw [hrw, Nat.mul_add_div (by norm_num), Nat.div_eq_of_lt (by omega)]
      omega
    rw [hq]
    have h7 : (0x7 : Nat) = 2 ^ 3 - 1 := by norm_num
    rw [h7, hmask]
    omega
  have hch : (pix_pack d c r v >>> 24) &&& 0xF = c := by
    rw [heq, hdiv]
    have hrw : 2 ^ 29 * d + 2 ^ 28 + 2 ^ 24 * c + 2 ^ 16 * r + v
        = 2 ^ 24 * (2 ^ 5 * d + 2 ^ 4 + c) + (2 ^ 16 * r + v) := by ring
    rw [hrw, Nat.mul_add_div (by norm_num), Nat.div_eq_of_lt (by omega)]
    have hF : (0xF : Nat) = 2 ^ 4 - 1 := by norm_num
    rw [hF, hmask]
    omega
  have hreg : (pix_pack d c r v >>> 16) &&& 0xFF = r := by
    rw [heq, hdiv]
    have hrw : 2 ^ 29 * d + 2 ^ 28 + 2 ^ 24 * c + 2 ^ 16 * r + v
        = 2 ^ 16 * (2 ^ 13 * d + 2 ^ 12 + 2 ^ 8 * c + r) + v := by ring
    rw [hrw, Nat.mul_add_div (by norm_num), Nat.div_eq_of_lt (by omega)]
    have hFF : (0xFF : Nat) = 2 ^ 8 - 1 := by norm_num
    rw [hFF, hmask]
    omega
  have hval : pix_pack d c r v &&& 0xFFFF = v := by
    rw [heq]
    have hFFFF : (0xFFFF : Nat) = 2 ^ 16 - 1 := by norm_num
    rw [hFFFF, hmask]
    have hrw : 2 ^ 29 * d + 2 ^ 28 + 2 ^ 24 * c + 2 ^ 16 * r + v
        = 2 ^ 16 * (2 ^ 13 * d + 2 ^ 12 + 2 ^ 8 * c + r) + v := by ring
    rw [hrw, Nat.mul_add_mod]
    exact Nat.mod_eq_of_lt hv
  rw [hdev, hch, hreg, hval]

theorem C8_witness :
    (3 : Nat) < 8 ∧ (12 : Nat) < 16 ∧ (0x42 : Nat) < 256 ∧ (0x1234 : Nat) < 65536 ∧
      (pix_unpack (pix_pack 3 12 0x42 0x1234) = some (3, 12, 0x42, 0x1234) ∧
        (pix_pack 3 12 0x42 0x1234) &&& 0x10000000 ≠ 0) :=
  ⟨by norm_num, by norm_num, by norm_num, by norm_num,
    C8_pix_pack_unpack_roundtrip 3 12 0x42 0x1234 (by norm_num) (by norm_num)
      (by norm_num) (by norm_num)⟩

/-! ## RGB565 conversion (emu/src/vga/palette.rs) -/

/-- Helper: bitwise or with a small operand on disjoint low bits is addition. -/
theorem two_pow_mul_or_add {i : Nat} (a b : Nat) (hb : b < 2 ^ i) :
    2 ^ i * a ||| b = 2 ^ i * a + b :=
  (Nat.mul_add_lt_is_or hb a).symm

/-- palette.rs `rgb565_to_rgba`: convert a 16-bit PICO_SCANVIDEO pixel
(R5 at bits 4:0, alpha at bit 5, G5 at bits 10:6, B5 at bits 15:11) to an
RGBA u32 (R at bits 31:24, G 23:16, B 15:8, alpha byte 7:0), each 5-bit
channel expanded to 8 bits by `(v << 3) | (v >> 2)`. -/
def rgb565_to_rgba (raw : Nat) : Nat :=
  let alpha := if raw &&& (1 <<< 5) ≠ 0 then 0xFF else 0x00
  let r5 := raw &&& 0x1F
  let g5 := (raw >>> 6) &&& 0x1F
  let b5 := (raw >>> 11) &&& 0x1F
  let r := (r5 <<< 3) ||| (r5 >>> 2)
  let g := (g5 <<< 3) ||| (g5 >>> 2)
  let b := (b5 <<< 3) ||| (b5 >>> 2)
  (r <<< 24) ||| (g <<< 16) ||| (b <<< 8) ||| alpha

/-- Helper: for a 5-bit channel value, `(v5 << 3) ||| (v5 >> 2)` is
`8 * v5 + v5 / 4` as plain arithmetic. -/
theorem expand5_eq (v5 : Nat) (hv : v5 < 32) :
    (v5 <<< 3) ||| (v5 >>> 2) = 8 * v5 + v5 / 4 := by
  rw [Nat.shiftLeft_eq, Nat.shiftRight_eq_div_pow, Nat.mul_comm]
  have hb : v5 / 2 ^ 2 < 2 ^ 3 := by omega
  rw [two_pow_mul_or_add v5 (v5 / 2 ^ 2) hb]
  norm_num

/-- Helper: composing the four RGBA bytes with shifts and ors is ordinary
positional arithmetic. -/
theorem rgba_bytes_eq_add (r g b alpha : Nat) (hr : r < 256) (hg : g < 256)
    (hb : b < 256) (ha : alpha < 256) :
    (r <<< 24) ||| (g <<< 16) ||| (b <<< 8) ||| alpha
      = 2 ^ 24 * r + 2 ^ 16 * g + 2 ^ 8 * b + alpha := by
  have hshift : ∀ x n : Nat, x <<< n = 2 ^ n * x := by
    intro x n
    rw [Nat.shiftLeft_eq, Nat.mul_comm]
  rw [Nat.lor_assoc, Nat.lor_assoc, hshift, hshift, hshift]
  have h1 : 2 ^ 8 * b ||| alpha = 2 ^ 8 * b + alpha :=
    two_pow_mul_or_add b alpha (by omega)
  have h2 : 2 ^ 16 * g ||| (2 ^ 8 * b + alpha) = 2 ^ 16 * g + (2 ^ 8 * b + alpha) :=
    two_pow_mul_or_add g _ (by omega)
  have h3 : 2 ^ 24 * r ||| (2 ^ 16 * g + (2 ^ 8 * b + alpha))
      = 2 ^ 24 * r + (2 ^ 16 * g + (2 ^ 8 * b + alpha)) :=
    two_pow_mul_or_add r _ (by omega)
  rw [h1, h2, h3]
  ring

/-- C9: for every 16-bit RGB565 word, the RGBA produced by
`rgb565_to_rgba` carries the original five channel bits in the top five
bits of each 8-bit channel, its alpha byte is 0xFF exactly when bit 5 of
the word is set and 0x00 otherwise, and each channel byte is the
`(v << 3) | (v >> 2)` expansion of its 5-bit source. -/
theorem C9_rgb565_roundtrip (raw : Nat) (hv : raw < 65536) :
    ((rgb565_to_rgba raw >>> 24) &&& 0xFF) >>> 3 = raw &&& 0x1F ∧
    ((rgb565_to_rgba raw >>> 16) &&& 0xFF) >>> 3 = (raw >>> 6) &&& 0x1F ∧
    ((rgb565_to_rgba raw >>> 8) &&& 0xFF) >>> 3 = (raw >>> 11) &&& 0x1F ∧
    (rgb565_to_rgba raw &&& 0xFF) = (if raw &&& (1 <<< 5) ≠ 0 then 0xFF else 0x00) ∧
    (rgb565_to_rgba raw >>> 24) &&& 0xFF
      = ((raw &&& 0x1F) <<< 3) ||| ((raw &&& 0x1F) >>> 2) ∧
    (rgb565_to_rgba raw >>> 16) &&& 0xFF
      = (((raw >>> 6) &&& 0x1F) <<< 3) ||| (((raw >>> 6) &&& 0x1F) >>> 2) ∧
    (rgb565_to_rgba raw >>> 8) &&& 0xFF
      = (((raw >>> 11) &&& 0x1F) <<< 3) ||| (((raw >>> 11) &&& 0x1F) >>> 2) := by
  have hmask : ∀ x k : Nat, x &&& 2 ^ k - 1 = x % 2 ^ k := fun x k =>
    Nat.and_pow_two_sub_one_eq_mod x k
  have hdiv : ∀ x k : Nat, x >>> k = x / 2 ^ k := fun x k =>
    Nat.shiftRight_eq_div_pow x k
  have h5 : ∀ x : Nat, x &&& 0x1F < 32 := fun x =>
    Nat.and_lt_two_pow x (show (0x1F : Nat) < 2 ^ 5 by norm_num)
  set r5 := raw &&& 0x1F with hr5def
  set g5 := (raw >>> 6) &&& 0x1F with hg5def
  set b5 := (raw >>> 11) &&& 0x1F with hb5def
  have hr5 : r5 < 32 := h5 raw
  have hg5 : g5 < 32 := h5 _
  have hb5 : b5 < 32 := h5 _
  set alpha := if raw &&& (1 <<< 5) ≠ 0 then (0xFF : Nat) else 0x00 with halphadef
  have halpha : alpha < 256 := by
    rw [halphadef]
    split <;> norm_num
  have hA : rgb565_to_rgba raw
      = 2 ^ 24 * (8 * r5 + r5 / 4) + 2 ^ 16 * (8 * g5 + g5 / 4)
          + 2 ^ 8 * (8 * b5 + b5 / 4) + alpha := by
    show ((r5 <<< 3) ||| (r5 >>> 2)) <<< 24 ||| ((g5 <<< 3) ||| (g5 >>> 2)) <<< 16
        ||| ((b5 <<< 3) ||| (b5 >>> 2)) <<< 8 ||| alpha = _
    rw [expand5_eq r5 hr5, expand5_eq g5 hg5, expand5_eq b5 hb5]
    exact rgba_bytes_eq_add _ _ _ _ (by omega) (by omega) (by omega) halpha
  have hr255 : (rgb565_to_rgba raw >>> 24) &&& 0xFF = 8 * r5 + r5 / 4 := by
    rw [hA, hdiv]
    have hrw : 2 ^ 24 * (8 * r5 + r5 / 4) + 2 ^ 16 * (8 * g5 + g5 / 4)
          + 2 ^ 8 * (8 * b5 + b5 / 4) + alpha
        = 2 ^ 24 * (8 * r5 + r5 / 4)
          + (2 ^ 16 * (8 * g5 + g5 / 4) + 2 ^ 8 * (8 * b5 + b5 / 4) + alpha) := by ring
    have hz : (2 ^ 16 * (8 * g5 + g5 / 4) + 2 ^ 8 * (8 * b5 + b5 / 4) + alpha) / 2 ^ 24
        = 0 := Nat.div_eq_of_lt (by omega)
    rw [hrw, Nat.mul_add_div (by norm_num), hz]
    have hFF : (0xFF : Nat) = 2 ^ 8 - 1 := by norm_num
    rw [hFF, hmask]
    omega
  have hg255 : (rgb565_to_rgba raw >>> 16) &&& 0xFF = 8 * g5 + g5 / 4 := by
    rw [hA, hdiv]
    have hrw : 2 ^ 24 * (8 * r5 + r5 / 4) + 2 ^ 16 * (8 * g5 + g5 / 4)
          + 2 ^ 8 * (8 * b5 + b5 / 4) + alpha
        = 2 ^ 16 * (2 ^ 8 * (8 * r5 + r5 / 4) + (8 * g5 + g5 / 4))
          + (2 ^ 8 * (8 * b5 + b5 / 4) + alpha) := by ring
    have hz : (2 ^ 8 * (8 * b5 + b5 / 4) + alpha) / 2 ^ 16 = 0 :=
      Nat.div_eq_of_lt (by omega)
    rw [hrw, Nat.mul_add_div (by norm_num), hz]
    have hFF : (0xFF : Nat) = 2 ^ 8 - 1 := by norm_num
    rw [hFF, hmask, Nat.add_zero, Nat.mul_add_mod]
    exact Nat.mod_eq_of_lt (by omega)
  have hb255 : (rgb565_to_rgba raw >>> 8) &&& 0xFF = 8 * b5 + b5 / 4 := by
    rw [hA, hdiv]
    have hrw : 2 ^ 24 * (8 * r5 + r5 / 4) + 2 ^ 16 * (8 * g5 + g5 / 4)
          + 2 ^ 8 * (8 * b5 + b5 / 4) + alpha
        = 2 ^ 8 * (2 ^ 16 * (8 * r5 + r5 / 4) + 2 ^ 8 * (8 * g5 + g5 / 4)
            + (8 * b5 + b5 / 4)) + alpha := by ring
    have hz : alpha / 2 ^ 8 = 0 := Nat.div_eq_of_lt (by omega)
    rw [hrw, Nat.mul_add_div (by norm_num), hz]
    have hFF : (0xFF : Nat) = 2 ^ 8 - 1 := by norm_num
    rw [hFF, hmask, Nat.add_zero]
    have hrw2 : 2 ^ 16 * (8 * r5 + r5 / 4) + 2 ^ 8 * (8 * g5 + g5 / 4)
          + (8 * b5 + b5 / 4)
        = 2 ^ 8 * (2 ^ 8 * (8 * r5 + r5 / 4) + (8 * g5 + g5 / 4))
          + (8 * b5 + b5 / 4) := by ring
    rw [hrw2, Nat.mul_add_mod]
    exact Nat.mod_eq_of_lt (by omega)
  refine ⟨?_, ?_, ?_, ?_, ?_, ?_, ?_⟩
  · rw [hr255, hdiv, show (2 : Nat) ^ 3 = 8 from by norm_num]
    omega
  · rw [hg255, hdiv, show (2 : Nat) ^ 3 = 8 from by norm_num]
    omega
  · rw [hb255, hdiv, show (2 : Nat) ^ 3 = 8 from by norm_num]
    omega
  · rw [hA]
    have hFF : (0xFF : Nat) = 2 ^ 8 - 1 := by norm_num
    conv_lhs => rw [hFF, hmask]
    have hrw : 2 ^ 24 * (8 * r5 + r5 / 4) + 2 ^ 16 * (8 * g5 + g5 / 4)
          + 2 ^ 8 * (8 * b5 + b5 / 4) + alpha
        = 2 ^ 8 * (2 ^ 16 * (8 * r5 + r5 / 4) + 2 ^ 8 * (8 * g5 + g5 / 4)
            + (8 * b5 + b5 / 4)) + alpha := by ring
    rw [hrw, Nat.mul_add_mod]
    exact Nat.mod_eq_of_lt halpha
  · rw [hr255, expand5_eq r5 hr5]
  · rw [hg255, expand5_eq g5 hg5]
  · rw [hb255, expand5_eq b5 hb5]

theorem C9_witness :
    (0x5BEA : Nat) < 65536 ∧
      (((rgb565_to_rgba 0x5BEA >>> 24) &&& 0xFF) >>> 3 = 0x5BEA &&& 0x1F ∧
        ((rgb565_to_rgba 0x5BEA >>> 16) &&& 0xFF) >>> 3 = (0x5BEA >>> 6) &&& 0x1F ∧
        ((rgb565_to_rgba 0x5BEA >>> 8) &&& 0xFF) >>> 3 = (0x5BEA >>> 11) &&& 0x1F ∧
        (rgb565_to_rgba 0x5BEA &&& 0xFF)
          = (if 0x5BEA &&& (1 <<< 5) ≠ 0 then 0xFF else 0x00) ∧
        (rgb565_to_rgba 0x5BEA >>> 24) &&& 0xFF
          = ((0x5BEA &&& 0x1F) <<< 3) ||| ((0x5BEA &&& 0x1F) >>> 2) ∧
        (rgb565_to_rgba 0x5BEA >>> 16) &&& 0xFF
          = (((0x5BEA >>> 6) &&& 0x1F) <<< 3) ||| (((0x5BEA >>> 6) &&& 0x1F) >>> 2) ∧
        (rgb565_to_rgba 0x5BEA >>> 8) &&& 0xFF
          = (((0x5BEA >>> 11) &&& 0x1F) <<< 3) ||| (((0x5BEA >>> 11) &&& 0x1F) >>> 2)) :=
  ⟨by norm_num, C9_rgb565_roundtrip 0x5BEA (by norm_num)⟩

/-! ## Bus transactions (emu/src/bus.rs) -/

/-- bus.rs `BusTransaction`: a single 6502 bus transaction; `rw` is true
for reads. -/
structure BusTransaction where
  cycle : Nat
  addr : Nat
  data : Nat
  rw : Bool
deriving DecidableEq, Repr

/-- bus.rs `BusTransaction::write`. -/
def BusTransaction.write (cycle addr data : Nat) : BusTransaction :=
  ⟨cycle, addr, data, false⟩

/-- bus.rs `BusTransaction::read`. -/
def BusTransaction.read (cycle addr data : Nat) : BusTransaction :=
  ⟨cycle, addr, data, true⟩

/-- bus.rs `hits_ria`: true when the address targets $FFE0-$FFFF. -/
def BusTransaction.hits_ria (t : BusTransaction) : Bool :=
  decide (0xFFE0 ≤ t.addr)

/-- bus.rs `ria_reg`: register index 0-31 for this address. -/
def BusTransaction.ria_reg (t : BusTransaction) : Nat :=
  t.addr &&& 0x1F

/-! ## RIA register and portal engine (emu/src/ria.rs) -/

def XSTACK_SIZE : Nat := 0x200

/-- Pointwise update of an index-addressed map, modelling an array store. -/
def updFn {α : Type} (f : Nat → α) (i : Nat) (v : α) : Nat → α :=
  fun j => if j = i then v else f j

/-- ria.rs `Ria` state.  The PIX sender and backchannel receiver are not
state here: sends are returned as explicit event lists by the functions
below, and the backchannel is an external input (its handler
`poll_backchannel` touches only `regs[3]`, `irq_pin` and `running`). -/
structure Ria where
  regs : Nat → Nat
  xram : Nat → Nat
  xstack : Nat → Nat
  xstack_ptr : Nat
  irq_enabled : Nat
  irq_pin : Bool
  cycle_count : Nat
  phi2_freq : Nat
  cycles_per_frame : Nat
  next_frame_cycle : Nat
  running : Bool

/-- ria.rs `addr0`: little-endian u16 from registers 6 and 7. -/
def Ria.addr0 (s : Ria) : Nat :=
  s.regs 0x06 + 256 * s.regs 0x07

/-- ria.rs `set_addr0`: store a u16 into registers 6 and 7. -/
def Ria.set_addr0 (s : Ria) (val : Nat) : Ria :=
  { s with regs := updFn (updFn s.regs 0x06 (val % 256)) 0x07 (val / 256 % 256) }

/-- ria.rs `addr1`. -/
def Ria.addr1 (s : Ria) : Nat :=
  s.regs 0x0A + 256 * s.regs 0x0B

/-- ria.rs `set_addr1`. -/
def Ria.set_addr1 (s : Ria) (val : Nat) : Ria :=
  { s with regs := updFn (updFn s.regs 0x0A (val % 256)) 0x0B (val / 256 % 256) }

/-- Sign extension of a byte to 16 bits, modelling the Rust cast chain
`b as i8 as i16 as u16` used on STEP0/STEP1. -/
def sext8to16 (b : Nat) : Nat :=
  if b < 128 then b else 0xFF00 + b

/-- ria.rs `refresh_rw`: mirror `xram[ADDR0]`/`xram[ADDR1]` into RW0/RW1. -/
def Ria.refresh_rw (s : Ria) : Ria :=
  { s with regs := updFn (updFn s.regs 0x04 (s.xram s.addr0)) 0x08 (s.xram s.addr1) }

/-- ria.rs `api_return_ax`: write the released 6502 thunk
`NOP; BRA +0; LDA #lo; LDX #hi; RTS` into registers $10-$17 and refresh
the XSTACK register from the stack top. -/
def Ria.api_return_ax (s : Ria) (val : Nat) : Ria :=
  let r := updFn s.regs 0x10 0xEA
  let r := updFn r 0x11 0x80
  let r := updFn r 0x12 0x00
  let r := updFn r 0x13 0xA9
  let r := updFn r 0x14 (val &&& 0xFF)
  let r := updFn r 0x15 0xA2
  let r := updFn r 0x16 ((val >>> 8) % 256)
  let r := updFn r 0x17 0x60
  let r := updFn r 0x0C (s.xstack s.xstack_ptr)
  { s with regs := r }

/-- ria.rs `handle_xreg`: send accumulated xstack data as PIX register
writes.  The returned list is the sequence of sends, in send order
(the source loop runs `i` from `count - 1` down to `0`). -/
def Ria.handle_xreg (s : Ria) : Ria × List PixEvent :=
  if s.xstack_ptr ≥ XSTACK_SIZE - 3 then
    (s.api_return_ax 0xFFFF, [])
  else if XSTACK_SIZE - s.xstack_ptr - 3 < 2 ∨ (XSTACK_SIZE - s.xstack_ptr - 3) % 2 ≠ 0
      ∨ s.xstack (XSTACK_SIZE - 1) > 7 ∨ s.xstack (XSTACK_SIZE - 2) > 15 then
    (s.api_return_ax 0xFFFF, [])
  else
    let count := (XSTACK_SIZE - s.xstack_ptr - 3) / 2
    let evs := (List.range count).reverse.map (fun i =>
      let offset := s.xstack_ptr + (count - 1 - i) * 2
      PixEvent.Reg (s.xstack (XSTACK_SIZE - 2)) ((s.xstack (XSTACK_SIZE - 3) + i) % 256)
        (s.xstack offset + 256 * s.xstack (offset + 1)))
    (Ria.api_return_ax { s with xstack_ptr := XSTACK_SIZE } 0, evs)

/-- ria.rs `handle_op`: dispatch an OS operation written to $FFEF. -/
def Ria.handle_op (s : Ria) (op : Nat) : Ria × List PixEvent :=
  if op = 0x00 then
    (Ria.api_return_ax
      { s with regs := updFn s.regs 0x0C 0, xstack_ptr := XSTACK_SIZE } 0, [])
  else if op = 0x01 then
    s.handle_xreg
  else if op = 0xFF then
    ({ s with running := false }, [])
  else
    (s.api_return_ax 0xFFFF, [])

/-- ria.rs `handle_write`: dispatch a 6502 write to RIA register space,
returning the updated state and the PIX events sent. -/
def Ria.handle_write (s : Ria) (txn : BusTransaction) : Ria × List PixEvent :=
  if txn.ria_reg = 0x01 then
    ({ s with regs := updFn s.regs 0x00 (s.regs 0x00 ||| 0b10000000) }, [])
  else if txn.ria_reg = 0x04 then
    let addr := s.addr0
    let s1 := { s with xram := updFn s.xram addr txn.data }
    let new_addr := (addr + sext8to16 (s1.regs 0x05)) % 65536
    (s1.set_addr0 new_addr, [PixEvent.Xram addr txn.data])
  else if txn.ria_reg = 0x05 then
    ({ s with regs := updFn s.regs 0x05 txn.data }, [])
  else if txn.ria_reg = 0x06 then
    ({ s with regs := updFn s.regs 0x06 txn.data }, [])
  else if txn.ria_reg = 0x07 then
    ({ s with regs := updFn s.regs 0x07 txn.data }, [])
  else if txn.ria_reg = 0x08 then
    let addr := s.addr1
    let s1 := { s with xram := updFn s.xram addr txn.data }
    let new_addr := (addr + sext8to16 (s1.regs 0x09)) % 65536
    (s1.set_addr1 new_addr, [PixEvent.Xram addr txn.data])
  else if txn.ria_reg = 0x09 then
    ({ s with regs := updFn s.regs 0x09 txn.data }, [])
  else if txn.ria_reg = 0x0A then
    ({ s with regs := updFn s.regs 0x0A txn.data }, [])
  else if txn.ria_reg = 0x0B then
    ({ s with regs := updFn s.regs 0x0B txn.data }, [])
  else if txn.ria_reg = 0x0C then
    let s1 := if s.xstack_ptr > 0 then
        { s with xstack_ptr := s.xstack_ptr - 1,
                 xstack := updFn s.xstack (s.xstack_ptr - 1) txn.data }
      else s
    ({ s1 with regs := updFn s1.regs 0x0C (s1.xstack s1.xstack_ptr) }, [])
  else if txn.ria_reg = 0x0D then
    ({ s with regs := updFn s.regs 0x0D txn.data }, [])
  else if txn.ria_reg = 0x0E then
    ({ s with regs := updFn s.regs 0x0E txn.data }, [])
  else if txn.ria_reg = 0x0F then
    Ria.handle_op { s with regs := updFn s.regs 0x0F txn.data } txn.data
  else if txn.ria_reg = 0x10 then
    ({ s with irq_enabled := txn.data, irq_pin := true }, [])
  else
    ({ s with regs := updFn s.regs txn.ria_reg txn.data }, [])

/-- ria.rs `handle_read`: dispatch a 6502 read from RIA register space,
returning the updated state and the byte placed on the data bus. -/
def Ria.handle_read (s : Ria) (txn : BusTransaction) : Ria × Nat :=
  if txn.ria_reg = 0x00 then
    let v := (s.regs 0x00 ||| 0b10000000) &&& 0xBF
    ({ s with regs := updFn s.regs 0x00 v }, v)
  else if txn.ria_reg = 0x02 then
    let r := updFn s.regs 0x00 (s.regs 0x00 &&& 0xBF)
    ({ s with regs := updFn r 0x02 0 }, 0)
  else if txn.ria_reg = 0x04 then
    let v := s.regs 0x04
    (s.set_addr0 ((s.addr0 + sext8to16 (s.regs 0x05)) % 65536), v)
  else if txn.ria_reg = 0x08 then
    let v := s.regs 0x08
    (s.set_addr1 ((s.addr1 + sext8to16 (s.regs 0x09)) % 65536), v)
  else if txn.ria_reg = 0x0C then
    let v := s.regs 0x0C
    let s1 := if s.xstack_ptr < XSTACK_SIZE then
        { s with xstack_ptr := s.xstack_ptr + 1 }
      else s
    ({ s1 with regs := updFn s1.regs 0x0C (s1.xstack s1.xstack_ptr) }, v)
  else if txn.ria_reg = 0x10 then
    ({ s with irq_pin := true }, s.regs 0x10)
  else
    (s, s.regs txn.ria_reg)

/-- ria.rs `process`: apply one bus transaction.  Returns the updated
state, the PIX events sent while processing it, and the byte returned on
the data bus.  The backchannel poll at a frame boundary consumes an
external input and is not modeled (see `Ria`). -/
def Ria.process (s : Ria) (txn : BusTransaction) : Ria × List PixEvent × Nat :=
  let s := { s with cycle_count := txn.cycle }
  let step1 := if s.next_frame_cycle ≤ s.cycle_count then
      ({ s with next_frame_cycle := s.next_frame_cycle + s.cycles_per_frame },
        [PixEvent.FrameSync])
    else (s, ([] : List PixEvent))
  let s := step1.1.refresh_rw
  if txn.hits_ria = false then
    (s, step1.2, txn.data)
  else if txn.rw then
    let r := s.handle_read txn
    (r.1, step1.2, r.2)
  else
    let r := s.handle_write txn
    (r.1, step1.2 ++ r.2, txn.data)

/-- ria.rs `reset`: power-on register defaults (registers 0-15 zeroed
except VSYNC at 3, STEP0/STEP1 set to +1, RW0/RW1 mirrored from
`xram[0]`, stack emptied, IRQ disabled and inactive). -/
def Ria.reset (s : Ria) : Ria :=
  let r := fun i => if i < 16 ∧ i ≠ 3 then 0 else s.regs i
  let r := updFn r 0x05 1
  let r := updFn r 0x04 (s.xram 0)
  let r := updFn r 0x09 1
  let r := updFn r 0x08 (s.xram 0)
  { s with regs := r, xstack_ptr := XSTACK_SIZE, irq_enabled := 0,
           irq_pin := true, running := true }

/-- ria.rs `Ria::new`: fresh state (all memories zero) after `reset`,
with the default 8 MHz PHI2 clock. -/
def Ria.new : Ria :=
  Ria.reset
    { regs := fun _ => 0
      xram := fun _ => 0
      xstack := fun _ => 0
      xstack_ptr := XSTACK_SIZE
      irq_enabled := 0
      irq_pin := true
      cycle_count := 0
      phi2_freq := 8000000
      cycles_per_frame := 8000000 / 60
      next_frame_cycle := 8000000 / 60
      running := true }

/-- Apply a list of bus transactions with `process`, collecting the PIX
events and the returned data-bus bytes. -/
def Ria.processTrace (s : Ria) (txns : List BusTransaction) :
    Ria × List PixEvent × List Nat :=
  txns.foldl (fun acc txn =>
    let r := Ria.process acc.1 txn
    (r.1, acc.2.1 ++ r.2.1, acc.2.2 ++ [r.2.2])) (s, [], [])

/-! ## Stack behaviour of the RIA (claims C6 and C7) -/

/-- The spec's xstack invariant: the stack pointer stays within
`0 ≤ sp ≤ 512`, and the trailing zero sentinel at index 512 is intact. -/
def RiaStackInv (s : Ria) : Prop :=
  s.xstack_ptr ≤ 512 ∧ s.xstack 512 = 0

theorem api_return_ax_stack (s : Ria) (val : Nat) :
    (s.api_return_ax val).xstack = s.xstack ∧
      (s.api_return_ax val).xstack_ptr = s.xstack_ptr := by
  simp [Ria.api_return_ax]

theorem set_addr0_stack (s : Ria) (val : Nat) :
    (s.set_addr0 val).xstack = s.xstack ∧
      (s.set_addr0 val).xstack_ptr = s.xstack_ptr := by
  simp [Ria.set_addr0]

theorem set_addr1_stack (s : Ria) (val : Nat) :
    (s.set_addr1 val).xstack = s.xstack ∧
      (s.set_addr1 val).xstack_ptr = s.xstack_ptr := by
  simp [Ria.set_addr1]

theorem handle_xreg_stack (s : Ria) :
    (s.handle_xreg).1.xstack = s.xstack ∧
      ((s.handle_xreg).1.xstack_ptr = s.xstack_ptr ∨
        (s.handle_xreg).1.xstack_ptr = 512) := by
  simp only [Ria.handle_xreg]
  split_ifs <;> simp [Ria.api_return_ax, XSTACK_SIZE]

theorem handle_op_stack (s : Ria) (op : Nat) :
    (s.handle_op op).1.xstack = s.xstack ∧
      ((s.handle_op op).1.xstack_ptr = s.xstack_ptr ∨
        (s.handle_op op).1.xstack_ptr = 512) := by
  unfold Ria.handle_op
  split_ifs with h0 h1 hF
  · simp [Ria.api_return_ax, XSTACK_SIZE]
  · exact handle_xreg_stack s
  · simp
  · simp [Ria.api_return_ax]

theorem handle_write_stack (s : Ria) (txn : BusTransaction)
    (h : RiaStackInv s) : RiaStackInv (s.handle_write txn).1 := by
  obtain ⟨hp, hz⟩ := h
  delta Ria.handle_write
  by_cases h1 : txn.ria_reg = 0x01
  · rw [if_pos h1]
    exact ⟨hp, hz⟩
  rw [if_neg h1]
  by_cases h4 : txn.ria_reg = 0x04
  · rw [if_pos h4]
    exact ⟨hp, hz⟩
  rw [if_neg h4]
  by_cases h5 : txn.ria_reg = 0x05
  · rw [if_pos h5]
    exact ⟨hp, hz⟩
  rw [if_neg h5]
  by_cases h6 : txn.ria_reg = 0x06
  · rw [if_pos h6]
    exact ⟨hp, hz⟩
  rw [if_neg h6]
  by_cases h7 : txn.ria_reg = 0x07
  · rw [if_pos h7]
    exact ⟨hp, hz⟩
  rw [if_neg h7]
  by_cases h8 : txn.ria_reg = 0x08
  · rw [if_pos h8]
    exact ⟨hp, hz⟩
  rw [if_neg h8]
  by_cases h9 : txn.ria_reg = 0x09
  · rw [if_pos h9]
    exact ⟨hp, hz⟩
  rw [if_neg h9]
  by_cases hA : txn.ria_reg = 0x0A
  · rw [if_pos hA]
    exact ⟨hp, hz⟩
  rw [if_neg hA]
  by_cases hB : txn.ria_reg = 0x0B
  · rw [if_pos hB]
    exact ⟨hp, hz⟩
  rw [if_neg hB]
  by_cases hC : txn.ria_reg = 0x0C
  · rw [if_pos hC]
    by_cases hsp : s.xstack_ptr > 0
    · simp only [if_pos hsp]
      refine ⟨by simp; omega, ?_⟩
      simp only [updFn]
      rw [if_neg (by omega : ¬(512 : Nat) = s.xstack_ptr - 1)]
      exact hz
    · simp only [if_neg hsp]
      exact ⟨hp, hz⟩
  rw [if_neg hC]
  by_cases hD : txn.ria_reg = 0x0D
  · rw [if_pos hD]
    exact ⟨hp, hz⟩
  rw [if_neg hD]
  by_cases hE : txn.ria_reg = 0x0E
  · rw [if_pos hE]
    exact ⟨hp, hz⟩
  rw [if_neg hE]
  by_cases hF : txn.ria_reg = 0x0F
  · rw [if_pos hF]
    obtain ⟨ha, hb⟩ := handle_op_stack { s with regs := updFn s.regs 0x0F txn.data } txn.data
    refine ⟨?_, ?_⟩
    · rcases hb with hb | hb
      · rw [hb]
        exact hp
      · rw [hb]
    · rw [ha]
      exact hz
  rw [if_neg hF]
  by_cases h10 : txn.ria_reg = 0x10
  · rw [if_pos h10]
    exact ⟨hp, hz⟩
  rw [if_neg h10]
  exact ⟨hp, hz⟩

theorem handle_read_stack (s : Ria) (txn : BusTransaction)
    (h : RiaStackInv s) : RiaStackInv (s.handle_read txn).1 := by
  obtain ⟨hp, hz⟩ := h
  delta Ria.handle_read
  by_cases h0 : txn.ria_reg = 0x00
  · rw [if_pos h0]
    exact ⟨hp, hz⟩
  rw [if_neg h0]
  by_cases h2 : txn.ria_reg = 0x02
  · rw [if_pos h2]
    exact ⟨hp, hz⟩
  rw [if_neg h2]
  by_cases h4 : txn.ria_reg = 0x04
  · rw [if_pos h4]
    exact ⟨hp, hz⟩
  rw [if_neg h4]
  by_cases h8 : txn.ria_reg = 0x08
  · rw [if_pos h8]
    exact ⟨hp, hz⟩
  rw [if_neg h8]
  by_cases hC : txn.ria_reg = 0x0C
  · rw [if_pos hC]
    by_cases hsp : s.xstack_ptr < XSTACK_SIZE
    · simp only [if_pos hsp]
      have hsp512 : s.xstack_ptr < 512 := by
        simpa [XSTACK_SIZE] using hsp
      exact ⟨by simp; omega, hz⟩
    · simp only [if_neg hsp]
      exact ⟨hp, hz⟩
  rw [if_neg hC]
  by_cases h10 : txn.ria_reg = 0x10
  · rw [if_pos h10]
    exact ⟨hp, hz⟩
  rw [if_neg h10]
  exact ⟨hp, hz⟩

theorem process_stack (s : Ria) (txn : BusTransaction)
    (h : RiaStackInv s) : RiaStackInv (s.process txn).1 := by
  obtain ⟨hp, hz⟩ := h
  delta Ria.process
  simp only []
  by_cases hfr : s.next_frame_cycle ≤ txn.cycle
  · rw [if_pos hfr]
    by_cases hhit : txn.hits_ria = false
    · rw [if_pos hhit]
      exact ⟨hp, hz⟩
    rw [if_neg hhit]
    by_cases hrd : txn.rw = true
    · rw [if_pos hrd]
      exact handle_read_stack _ _ ⟨hp, hz⟩
    rw [if_neg hrd]
    exact handle_write_stack _ _ ⟨hp, hz⟩
  · rw [if_neg hfr]
    by_cases hhit : txn.hits_ria = false
    · rw [if_pos hhit]
      exact ⟨hp, hz⟩
    rw [if_neg hhit]
    by_cases hrd : txn.rw = true
    · rw [if_pos hrd]
      exact handle_read_stack _ _ ⟨hp, hz⟩
    rw [if_neg hrd]
    exact handle_write_stack _ _ ⟨hp, hz⟩

theorem processTrace_stack (txns : List BusTransaction) :
    ∀ (s : Ria) (evs : List PixEvent) (outs : List Nat), RiaStackInv s →
      RiaStackInv (txns.foldl (fun acc txn =>
        let r := Ria.process acc.1 txn
        (r.1, acc.2.1 ++ r.2.1, acc.2.2 ++ [r.2.2])) (s, evs, outs)).1 := by
  induction txns with
  | nil =>
    intro s evs outs h
    exact h
  | cons t ts ih =>
    intro s evs outs h
    simp only [List.foldl]
    exact ih _ _ _ (process_stack s t h)

/-- C7: for every sequence of bus transactions processed from a freshly
reset RIA, the xstack invariant `sp ≤ 512` and `xstack[512] = 0` holds
after each transaction; moreover a push (write to register 0x0C) at
`sp = 0` is dropped without touching the stack, and a pop (read of
register 0x0C) at `sp = 512` does not increment `sp`. -/
theorem C7_xstack_invariant :
    (∀ txns : List BusTransaction, RiaStackInv (Ria.new.processTrace txns).1) ∧
    (∀ (s : Ria) (txn : BusTransaction), txn.ria_reg = 0x0C →
      s.xstack_ptr = 0 →
      (s.handle_write txn).1.xstack = s.xstack ∧
        (s.handle_write txn).1.xstack_ptr = 0) ∧
    (∀ (s : Ria) (txn : BusTransaction), txn.ria_reg = 0x0C →
      s.xstack_ptr = 512 →
      (s.handle_read txn).1.xstack = s.xstack ∧
        (s.handle_read txn).1.xstack_ptr = 512) := by
  refine ⟨?_, ?_, ?_⟩
  · intro txns
    exact processTrace_stack txns Ria.new [] [] ⟨by decide, rfl⟩
  · intro s txn hreg hsp
    delta Ria.handle_write
    rw [hreg]
    norm_num
    rw [hsp]
    norm_num
    exact hsp
  · intro s txn hreg hsp
    delta Ria.handle_read
    rw [hreg]
    norm_num [XSTACK_SIZE]
    rw [hsp]
    norm_num
    exact hsp

theorem C7_witness :
    ((BusTransaction.write 0 0xFFEC 0x42).ria_reg = 0x0C ∧
      (Ria.new.xstack_ptr = 512) ∧
      (Ria.new.handle_read (BusTransaction.read 0 0xFFEC 0)).1.xstack_ptr = 512) ∧
    RiaStackInv (Ria.new.processTrace [BusTransaction.write 0 0xFFEC 0x42]).1 :=
  ⟨⟨by decide, by decide,
      (C7_xstack_invariant.2.2 Ria.new (BusTransaction.read 0 0xFFEC 0)
        (by decide) (by decide)).2⟩,
    C7_xstack_invariant.1 [BusTransaction.write 0 0xFFEC 0x42]⟩

/-- The bus trace of spec scenario 8.2.2: two pushes then three pops of
the xstack register $FFEC. -/
def c6trace : List BusTransaction :=
  [BusTransaction.write 0 0xFFEC 0x42,
   BusTransaction.write 1 0xFFEC 0x43,
   BusTransaction.read 2 0xFFEC 0,
   BusTransaction.read 3 0xFFEC 0,
   BusTransaction.read 4 0xFFEC 0]

/-- C6: from a freshly reset RIA, the trace `W $FFEC 0x42; W $FFEC 0x43;
R $FFEC; R $FFEC; R $FFEC` returns 0x43, 0x42, 0x00 on the three reads
and leaves `sp = 512` and `reg[XSTACK] = 0`; in general a read of
register 0x0C returns the current `reg[XSTACK]`, then increments `sp`
when `sp < 512`, then refreshes `reg[XSTACK]` from `xstack[sp]`. -/
theorem C6_xstack_interleave :
    ((Ria.new.processTrace c6trace).2.2 = [0x42, 0x43, 0x43, 0x42, 0x00] ∧
      (Ria.new.processTrace c6trace).1.xstack_ptr = 512 ∧
      (Ria.new.processTrace c6trace).1.regs 0x0C = 0) ∧
    (∀ (s : Ria) (txn : BusTransaction), txn.ria_reg = 0x0C →
      (s.handle_read txn).2 = s.regs 0x0C ∧
      (s.handle_read txn).1.xstack_ptr
        = (if s.xstack_ptr < 512 then s.xstack_ptr + 1 else s.xstack_ptr) ∧
      (s.handle_read txn).1.regs 0x0C
        = s.xstack ((s.handle_read txn).1.xstack_ptr)) := by
  refine ⟨⟨by decide, by decide, by decide⟩, ?_⟩
  intro s txn hreg
  delta Ria.handle_read
  rw [hreg]
  norm_num [XSTACK_SIZE]
  by_cases hsp : s.xstack_ptr < 512
  · simp [hsp, updFn]
  · simp [hsp, updFn]

theorem C6_witness :
    (BusTransaction.read 0 0xFFEC 0).ria_reg = 0x0C ∧
      ((Ria.new.handle_read (BusTransaction.read 0 0xFFEC 0)).2
          = Ria.new.regs 0x0C ∧
        (Ria.new.handle_read (BusTransaction.read 0 0xFFEC 0)).1.xstack_ptr
          = (if Ria.new.xstack_ptr < 512 then Ria.new.xstack_ptr + 1
              else Ria.new.xstack_ptr) ∧
        (Ria.new.handle_read (BusTransaction.read 0 0xFFEC 0)).1.regs 0x0C
          = Ria.new.xstack
              ((Ria.new.handle_read (BusTransaction.read 0 0xFFEC 0)).1.xstack_ptr)) :=
  ⟨by decide,
    C6_xstack_interleave.2 Ria.new (BusTransaction.read 0 0xFFEC 0) (by decide)⟩

/-! ## xreg marshalling (claims C1 and C5) -/

/-- C5: when the xreg OP fires with a malformed xstack (payload shorter
than two bytes, odd payload length, device above 7 or channel above 15,
with `payload_bytes = 512 - sp - 3` counted as an integer), the RIA sends
no PIX event, leaves the xstack bytes and the stack pointer unchanged,
and sets the API return value in A/X to 0xFFFF. -/
theorem C5_malformed_xreg (s : Ria)
    (hsp : s.xstack_ptr ≤ 512)
    (hbad : (512 : Int) - s.xstack_ptr - 3 < 2
      ∨ ((512 : Int) - s.xstack_ptr - 3) % 2 = 1
      ∨ s.xstack 511 > 7 ∨ s.xstack 510 > 15) :
    (s.handle_xreg).2 = [] ∧
    (s.handle_xreg).1.xstack = s.xstack ∧
    (s.handle_xreg).1.xstack_ptr = s.xstack_ptr ∧
    (s.handle_xreg).1.regs 0x14 = 0xFF ∧
    (s.handle_xreg).1.regs 0x16 = 0xFF := by
  delta Ria.handle_xreg
  by_cases hge : s.xstack_ptr ≥ XSTACK_SIZE - 3
  · rw [if_pos hge]
    refine ⟨rfl, rfl, rfl, ?_, ?_⟩ <;> simp [Ria.api_return_ax, updFn] <;> decide
  · rw [if_neg hge]
    have hlt : s.xstack_ptr < 509 := by
      simp only [XSTACK_SIZE] at hge
      omega
    have hcond : XSTACK_SIZE - s.xstack_ptr - 3 < 2
        ∨ (XSTACK_SIZE - s.xstack_ptr - 3) % 2 ≠ 0
        ∨ s.xstack (XSTACK_SIZE - 1) > 7 ∨ s.xstack (XSTACK_SIZE - 2) > 15 := by
      have e1 : XSTACK_SIZE - 1 = 511 := by norm_num [XSTACK_SIZE]
      have e2 : XSTACK_SIZE - 2 = 510 := by norm_num [XSTACK_SIZE]
      rw [e1, e2]
      simp only [XSTACK_SIZE]
      rcases hbad with h | h | h | h
      · left
        omega
      · right
        left
        omega
      · right
        right
        left
        exact h
      · right
        right
        right
        exact h
    rw [if_pos hcond]
    refine ⟨rfl, rfl, rfl, ?_, ?_⟩ <;> simp [Ria.api_return_ax, updFn] <;> decide

theorem C5_witness :
    Ria.new.xstack_ptr ≤ 512 ∧
      ((512 : Int) - Ria.new.xstack_ptr - 3 < 2) ∧
      ((Ria.new.handle_xreg).2 = [] ∧
        (Ria.new.handle_xreg).1.xstack = Ria.new.xstack ∧
        (Ria.new.handle_xreg).1.xstack_ptr = Ria.new.xstack_ptr ∧
        (Ria.new.handle_xreg).1.regs 0x14 = 0xFF ∧
        (Ria.new.handle_xreg).1.regs 0x16 = 0xFF) :=
  ⟨by decide, by decide, C5_malformed_xreg Ria.new (by decide) (Or.inl (by decide))⟩

/-- C1: when the xreg OP fires with a well-formed xstack
(`payload_bytes = 512 - sp - 3` with `payload_bytes = 2n ≥ 2` even,
device below 8, channel below 16), the RIA emits exactly
`n = payload_bytes / 2` PIX register-write events; the j-th emitted event
(descending register order) carries register
`(start_reg + (n - 1 - j)) mod 256` and the little-endian word at xstack
offset `sp + 2j`, so the first event carries `start_reg + n - 1` from the
last-pushed word at offset `sp` and the last event carries `start_reg`
from the first-pushed word at the highest offset; afterwards `sp = 512`
and the API return value in A/X is 0. -/
theorem C1_xreg_emission (s : Ria) (n : Nat) (hn : 1 ≤ n)
    (hsp : s.xstack_ptr + 2 * n + 3 = 512)
    (hdev : s.xstack 511 < 8) (hch : s.xstack 510 < 16) :
    (s.handle_xreg).2.length = (512 - s.xstack_ptr - 3) / 2 ∧
    (512 - s.xstack_ptr - 3) / 2 = n ∧
    (∀ j, j < n →
      (s.handle_xreg).2[j]?
        = some (PixEvent.Reg (s.xstack 510)
            ((s.xstack 509 + (n - 1 - j)) % 256)
            (s.xstack (s.xstack_ptr + 2 * j)
              + 256 * s.xstack (s.xstack_ptr + 2 * j + 1)))) ∧
    (s.handle_xreg).1.xstack_ptr = 512 ∧
    (s.handle_xreg).1.regs 0x14 = 0 ∧
    (s.handle_xreg).1.regs 0x16 = 0 := by
  have hcount : (XSTACK_SIZE - s.xstack_ptr - 3) / 2 = n := by
    simp only [XSTACK_SIZE]
    omega
  have hne : ¬ s.xstack_ptr ≥ XSTACK_SIZE - 3 := by
    simp only [XSTACK_SIZE]
    omega
  have hok : ¬ (XSTACK_SIZE - s.xstack_ptr - 3 < 2
      ∨ (XSTACK_SIZE - s.xstack_ptr - 3) % 2 ≠ 0
      ∨ s.xstack (XSTACK_SIZE - 1) > 7 ∨ s.xstack (XSTACK_SIZE - 2) > 15) := by
    have e1 : XSTACK_SIZE - 1 = 511 := by norm_num [XSTACK_SIZE]
    have e2 : XSTACK_SIZE - 2 = 510 := by norm_num [XSTACK_SIZE]
    rw [e1, e2]
    simp only [XSTACK_SIZE]
    push_neg
    refine ⟨by omega, by omega, by omega, by omega⟩
  delta Ria.handle_xreg
  rw [if_neg hne, if_neg hok]
  rw [hcount]
  refine ⟨?_, ?_, ?_, rfl, ?_, ?_⟩
  · simp only [List.length_map, List.length_reverse, List.length_range]
    omega
  · omega
  · intro j hj
    rw [List.getElem?_map, List.getElem?_reverse (by simpa using hj),
      List.length_range, List.getElem?_range (by omega)]
    have hidx : n - 1 - (n - 1 - j) = j := by omega
    simp [hidx, Nat.mul_comm, XSTACK_SIZE]
  · simp [Ria.api_return_ax, updFn]
  · simp [Ria.api_return_ax, updFn]

/-- Concrete well-formed xreg state: device 1, channel 0, start register
0, one payload word with value 3 (spec scenario 8.2.3). -/
def c1state : Ria :=
  { Ria.new with
      xstack_ptr := 507
      xstack := fun i => if i = 511 then 1 else if i = 507 then 3 else 0 }

theorem C1_witness :
    (1 ≤ 1 ∧ c1state.xstack_ptr + 2 * 1 + 3 = 512 ∧
      c1state.xstack 511 < 8 ∧ c1state.xstack 510 < 16) ∧
    ((c1state.handle_xreg).2.length = (512 - c1state.xstack_ptr - 3) / 2 ∧
      (512 - c1state.xstack_ptr - 3) / 2 = 1 ∧
      (c1state.handle_xreg).2[0]?
        = some (PixEvent.Reg (c1state.xstack 510)
            ((c1state.xstack 509 + (1 - 1 - 0)) % 256)
            (c1state.xstack (c1state.xstack_ptr + 2 * 0)
              + 256 * c1state.xstack (c1state.xstack_ptr + 2 * 0 + 1))) ∧
      (c1state.handle_xreg).1.xstack_ptr = 512 ∧
      (c1state.handle_xreg).1.regs 0x14 = 0 ∧
      (c1state.handle_xreg).1.regs 0x16 = 0) := by
  have h := C1_xreg_emission c1state 1 (by decide) (by decide) (by decide) (by decide)
  exact ⟨⟨by decide, by decide, by decide, by decide⟩,
    h.1, h.2.1, h.2.2.1 0 (by decide), h.2.2.2.1, h.2.2.2.2.1, h.2.2.2.2.2⟩

/-! ## RW0 portal write sequences (claim C4) -/

/-- A sequence of bus writes to RW0 ($FFE4) applied through
`handle_write`, collecting the PIX events in emission order. -/
def writeRW0 (s : Ria) (vs : List Nat) : Ria × List PixEvent :=
  match vs with
  | [] => (s, [])
  | v :: rest =>
    let r := s.handle_write (BusTransaction.write 0 0xFFE4 v)
    let q := writeRW0 r.1 rest
    (q.1, r.2 ++ q.2)

theorem handle_write_rw0 (s : Ria) (c v : Nat) :
    s.handle_write (BusTransaction.write c 0xFFE4 v)
      = (Ria.set_addr0 { s with xram := updFn s.xram s.addr0 v }
          ((s.addr0 + sext8to16 (s.regs 0x05)) % 65536),
         [PixEvent.Xram s.addr0 v]) := by
  delta Ria.handle_write
  have hreg : (BusTransaction.write c 0xFFE4 v).ria_reg = 0x04 := by
    simp only [BusTransaction.ria_reg, BusTransaction.write]
    decide
  have hdata : (BusTransaction.write c 0xFFE4 v).data = v := by
    simp [BusTransaction.write]
  rw [hreg, hdata]
  rw [if_neg (by decide : ¬(0x04 : Nat) = 0x01), if_pos (by decide : (0x04 : Nat) = 0x04)]

theorem set_addr0_addr0 (s : Ria) (val : Nat) :
    (s.set_addr0 val).addr0 = val % 65536 := by
  simp [Ria.set_addr0, Ria.addr0, updFn]
  omega

theorem set_addr0_regs5 (s : Ria) (val : Nat) :
    (s.set_addr0 val).regs 0x05 = s.regs 0x05 := by
  simp [Ria.set_addr0, updFn]

theorem set_addr0_xram (s : Ria) (val : Nat) :
    (s.set_addr0 val).xram = s.xram := by
  simp [Ria.set_addr0]

theorem writeRW0_spec (vs : List Nat) : ∀ (s : Ria) (A b : Nat),
    s.addr0 = A → A < 65536 → s.regs 0x05 = b →
    (writeRW0 s vs).2 = (List.range vs.length).map (fun i =>
        PixEvent.Xram ((A + i * sext8to16 b) % 65536) (vs.getD i 0)) ∧
    (writeRW0 s vs).1.addr0 = (A + vs.length * sext8to16 b) % 65536 ∧
    (∀ a : Nat, (∀ i, i < vs.length → a ≠ (A + i * sext8to16 b) % 65536) →
        (writeRW0 s vs).1.xram a = s.xram a) ∧
    (∀ i, i < vs.length →
      (∀ j, i < j → j < vs.length →
        (A + j * sext8to16 b) % 65536 ≠ (A + i * sext8to16 b) % 65536) →
      (writeRW0 s vs).1.xram ((A + i * sext8to16 b) % 65536) = vs.getD i 0) := by
  induction vs with
  | nil =>
    intro s A b hA hA16 hb
    refine ⟨rfl, ?_, fun a _ => rfl, fun i hi => absurd hi (by simp)⟩
    simp only [writeRW0, List.length_nil, Nat.zero_mul, Nat.add_zero]
    rw [hA]
    exact (Nat.mod_eq_of_lt hA16).symm
  | cons v vs ih =>
    intro s A b hA hA16 hb
    have hstep : writeRW0 s (v :: vs)
        = ((writeRW0 (Ria.set_addr0 { s with xram := updFn s.xram A v }
              ((A + sext8to16 b) % 65536)) vs).1,
           [PixEvent.Xram A v]
             ++ (writeRW0 (Ria.set_addr0 { s with xram := updFn s.xram A v }
                  ((A + sext8to16 b) % 65536)) vs).2) := by
      simp only [writeRW0]
      rw [handle_write_rw0, hA, hb]
    set s1 : Ria := Ria.set_addr0 { s with xram := updFn s.xram A v }
      ((A + sext8to16 b) % 65536) with hs1def
    set A1 : Nat := (A + sext8to16 b) % 65536 with hA1def
    have hs1addr : s1.addr0 = A1 := by
      rw [hs1def, set_addr0_addr0]
      omega
    have hs1regs : s1.regs 0x05 = b := by
      rw [hs1def, set_addr0_regs5]
      exact hb
    have hs1xram : s1.xram = updFn s.xram A v := by
      rw [hs1def, set_addr0_xram]
    have hA116 : A1 < 65536 := by omega
    obtain ⟨ihev, ihaddr, ihframe, ihlast⟩ := ih s1 A1 b hs1addr hA116 hs1regs
    have haddr : ∀ i : Nat, (A1 + i * sext8to16 b) % 65536
        = (A + (i + 1) * sext8to16 b) % 65536 := by
      intro i
      rw [hA1def, Nat.mod_add_mod]
      congr 1
      ring
    have haddr0 : (A + 0 * sext8to16 b) % 65536 = A := by
      rw [Nat.zero_mul, Nat.add_zero]
      exact Nat.mod_eq_of_lt hA16
    refine ⟨?_, ?_, ?_, ?_⟩
    · rw [hstep]
      simp only [List.length_cons, List.range_succ_eq_map, List.map_cons, List.map_map]
      rw [haddr0]
      simp only [List.getD_cons_zero, List.cons_append, List.nil_append]
      congr 1
      rw [ihev]
      apply List.map_congr_left
      intro i hi
      simp only [Function.comp]
      rw [haddr i]
      simp
    · rw [hstep]
      simp only [List.length_cons]
      rw [ihaddr, haddr vs.length]
    · intro a ha
      rw [hstep]
      simp only []
      rw [ihframe a ?_, hs1xram]
      · have hane : a ≠ A := by
          have := ha 0 (by simp)
          rw [haddr0] at this
          exact this
        simp only [updFn]
        rw [if_neg hane]
      · intro i hi
        rw [haddr i]
        exact ha (i + 1) (by simp; omega)
    · intro i hi hnolater
      rw [hstep]
      cases i with
      | zero =>
        rw [haddr0]
        simp only [List.getD_cons_zero]
        rw [ihframe A ?_, hs1xram]
        · simp [updFn]
        · intro i' hi'
          rw [haddr i']
          intro hcol
          have := hnolater (i' + 1) (by omega) (by simp at hi ⊢; omega)
          rw [haddr0] at this
          exact this hcol.symm
      | succ i' =>
        have hi'n : i' < vs.length := by
          simp at hi
          omega
        rw [← haddr i']
        simp only [List.getD_cons_succ]
        apply ihlast i' hi'n
        intro j' hj1 hj2
        rw [haddr j', haddr i']
        exact hnolater (j' + 1) (by omega) (by simp; omega)

/-- C4 (amended): for a state with `ADDR0 = A` (a valid u16) and
`STEP0 = b`, after a sequence of bus writes of `v_0..v_{N-1}` to RW0,
provided the N written addresses `(A + i·sext(b)) mod 2^16` are pairwise
distinct: each `xram[(A + i·sext(b)) mod 2^16] = v_i`, the final `ADDR0`
is `(A + N·sext(b)) mod 2^16`, and the i-th emitted PIX event is
`Xram{(A + i·sext(b)) mod 2^16, v_i}` with the pre-increment address. -/
theorem C4_rw0_write_sequence (s : Ria) (A b : Nat) (vs : List Nat)
    (hA : s.addr0 = A) (hA16 : A < 65536) (hb : s.regs 0x05 = b)
    (hdist : ∀ i j, i < vs.length → j < vs.length → i ≠ j →
      (A + i * sext8to16 b) % 65536 ≠ (A + j * sext8to16 b) % 65536) :
    (∀ i, i < vs.length →
      (writeRW0 s vs).1.xram ((A + i * sext8to16 b) % 65536) = vs.getD i 0) ∧
    (writeRW0 s vs).1.addr0 = (A + vs.length * sext8to16 b) % 65536 ∧
    (∀ i, i < vs.length →
      (writeRW0 s vs).2[i]?
        = some (PixEvent.Xram ((A + i * sext8to16 b) % 65536) (vs.getD i 0))) := by
  obtain ⟨hev, haddr, hframe, hlast⟩ := writeRW0_spec vs s A b hA hA16 hb
  refine ⟨?_, haddr, ?_⟩
  · intro i hi
    exact hlast i hi (fun j h1 h2 => hdist j i h2 hi (by omega))
  · intro i hi
    rw [hev, List.getElem?_map, List.getElem?_range hi]
    simp

theorem C4_witness :
    (Ria.new.addr0 = 0 ∧ (0 : Nat) < 65536 ∧ Ria.new.regs 0x05 = 1) ∧
    (writeRW0 Ria.new [7, 9]).1.xram ((0 + 0 * sext8to16 1) % 65536) = 7 ∧
    (writeRW0 Ria.new [7, 9]).1.xram ((0 + 1 * sext8to16 1) % 65536) = 9 ∧
    (writeRW0 Ria.new [7, 9]).1.addr0 = (0 + 2 * sext8to16 1) % 65536 ∧
    (writeRW0 Ria.new [7, 9]).2[0]?
      = some (PixEvent.Xram ((0 + 0 * sext8to16 1) % 65536) 7) := by
  have hdist : ∀ i j, i < ([7, 9] : List Nat).length → j < ([7, 9] : List Nat).length →
      i ≠ j → (0 + i * sext8to16 1) % 65536 ≠ (0 + j * sext8to16 1) % 65536 := by
    intro i j hi hj hne
    simp only [sext8to16, List.length_cons, List.length_nil] at hi hj ⊢
    norm_num at hi hj ⊢
    omega
  have h := C4_rw0_write_sequence Ria.new 0 1 [7, 9] (by decide) (by decide)
    (by decide) hdist
  exact ⟨⟨by decide, by decide, by decide⟩,
    h.1 0 (by decide), h.1 1 (by decide), h.2.1, h.2.2 0 (by decide)⟩

/-- State with STEP0 programmed to 0, exhibiting colliding write addresses. -/
def c4state : Ria :=
  { Ria.new with regs := updFn Ria.new.regs 0x05 0 }

theorem C4_counterexample :
    c4state.addr0 = 0 ∧ c4state.regs 0x05 = 0 ∧
    (writeRW0 c4state [1, 2]).1.xram ((0 + 0 * sext8to16 0) % 65536) = 2 ∧
    ¬ (∀ i, i < ([1, 2] : List Nat).length →
        (writeRW0 c4state [1, 2]).1.xram ((0 + i * sext8to16 0) % 65536)
          = [1, 2].getD i 0) := by
  refine ⟨by decide, by decide, by decide, ?_⟩
  intro h
  have h0 := h 0 (by decide)
  exact absurd h0 (by decide)

/-! ## VGA programming protocol (emu/src/vga/mod.rs, mode1.rs, mode2.rs, mode3.rs) -/

/-- Little-endian u16 from two bytes (`u16::from_le_bytes`). -/
def u16le (lo hi : Nat) : Nat :=
  lo + 256 * hi

/-- Little-endian i16 from two bytes (`i16::from_le_bytes`), as an integer. -/
def i16le (lo hi : Nat) : Int :=
  if lo + 256 * hi < 32768 then (lo + 256 * hi : Int) else (lo + 256 * hi : Int) - 65536

/-- mode3.rs `Mode3Config` (14 bytes in XRAM). -/
structure Mode3Config where
  x_wrap : Bool
  y_wrap : Bool
  x_pos_px : Int
  y_pos_px : Int
  width_px : Int
  height_px : Int
  xram_data_ptr : Nat
  xram_palette_ptr : Nat
deriving DecidableEq, Repr

/-- mode3.rs `Mode3Config::from_xram`: read the config struct, or an
all-zero config when the 14-byte struct would cross the end of XRAM. -/
def Mode3Config.from_xram (xram : Nat → Nat) (ptr : Nat) : Mode3Config :=
  if ptr + 14 > 65536 then
    { x_wrap := false, y_wrap := false, x_pos_px := 0, y_pos_px := 0,
      width_px := 0, height_px := 0, xram_data_ptr := 0, xram_palette_ptr := 0 }
  else
    { x_wrap := xram ptr ≠ 0
      y_wrap := xram (ptr + 1) ≠ 0
      x_pos_px := i16le (xram (ptr + 2)) (xram (ptr + 3))
      y_pos_px := i16le (xram (ptr + 4)) (xram (ptr + 5))
      width_px := i16le (xram (ptr + 6)) (xram (ptr + 7))
      height_px := i16le (xram (ptr + 8)) (xram (ptr + 9))
      xram_data_ptr := u16le (xram (ptr + 10)) (xram (ptr + 11))
      xram_palette_ptr := u16le (xram (ptr + 12)) (xram (ptr + 13)) }

/-- mode3.rs `ColorFormat`. -/
inductive ColorFormat where
  | Bpp1Msb
  | Bpp2Msb
  | Bpp4Msb
  | Bpp8
  | Bpp16
  | Bpp1Lsb
  | Bpp2Lsb
  | Bpp4Lsb
deriving DecidableEq, Repr

/-- mode3.rs `ColorFormat::from_attr`. -/
def ColorFormat.from_attr (attr : Nat) : Option ColorFormat :=
  match attr with
  | 0 => some .Bpp1Msb
  | 1 => some .Bpp2Msb
  | 2 => some .Bpp4Msb
  | 3 => some .Bpp8
  | 4 => some .Bpp16
  | 8 => some .Bpp1Lsb
  | 9 => some .Bpp2Lsb
  | 10 => some .Bpp4Lsb
  | _ => none

/-- mode3.rs `ColorFormat::bits_per_pixel`. -/
def ColorFormat.bits_per_pixel : ColorFormat → Nat
  | .Bpp1Msb | .Bpp1Lsb => 1
  | .Bpp2Msb | .Bpp2Lsb => 2
  | .Bpp4Msb | .Bpp4Lsb => 4
  | .Bpp8 => 8
  | .Bpp16 => 16

/-- mode3.rs `Mode3Plane`.  The `config_ptr` back-reference field is the
one constructed in mod.rs `program_mode3` and re-read in `render_frame`.
-/
structure Mode3Plane where
  config : Mode3Config
  format : ColorFormat
  scanline_begin : Nat
  scanline_end : Nat
  config_ptr : Nat
deriving DecidableEq, Repr

/-- mode1.rs `Mode1Config` (16 bytes in XRAM). -/
structure Mode1Config where
  x_wrap : Bool
  y_wrap : Bool
  x_pos_px : Int
  y_pos_px : Int
  width_chars : Int
  height_chars : Int
  xram_data_ptr : Nat
  xram_palette_ptr : Nat
  xram_font_ptr : Nat
deriving DecidableEq, Repr

/-- mode1.rs `Mode1Config::from_xram`. -/
def Mode1Config.from_xram (xram : Nat → Nat) (ptr : Nat) : Mode1Config :=
  if ptr + 16 > 65536 then
    { x_wrap := false, y_wrap := false, x_pos_px := 0, y_pos_px := 0,
      width_chars := 0, height_chars := 0, xram_data_ptr := 0,
      xram_palette_ptr := 0, xram_font_ptr := 0 }
  else
    { x_wrap := xram ptr ≠ 0
      y_wrap := xram (ptr + 1) ≠ 0
      x_pos_px := i16le (xram (ptr + 2)) (xram (ptr + 3))
      y_pos_px := i16le (xram (ptr + 4)) (xram (ptr + 5))
      width_chars := i16le (xram (ptr + 6)) (xram (ptr + 7))
      height_chars := i16le (xram (ptr + 8)) (xram (ptr + 9))
      xram_data_ptr := u16le (xram (ptr + 10)) (xram (ptr + 11))
      xram_palette_ptr := u16le (xram (ptr + 12)) (xram (ptr + 13))
      xram_font_ptr := u16le (xram (ptr + 14)) (xram (ptr + 15)) }

/-- mode1.rs `Mode1Format`. -/
inductive Mode1Format where
  | Bpp1_8x8
  | Bpp4r_8x8
  | Bpp4_8x8
  | Bpp8_8x8
  | Bpp16_8x8
  | Bpp1_8x16
  | Bpp4r_8x16
  | Bpp4_8x16
  | Bpp8_8x16
  | Bpp16_8x16
deriving DecidableEq, Repr

/-- mode1.rs `Mode1Format::from_attr`. -/
def Mode1Format.from_attr (attr : Nat) : Option Mode1Format :=
  match attr with
  | 0 => some .Bpp1_8x8
  | 1 => some .Bpp4r_8x8
  | 2 => some .Bpp4_8x8
  | 3 => some .Bpp8_8x8
  | 4 => some .Bpp16_8x8
  | 8 => some .Bpp1_8x16
  | 9 => some .Bpp4r_8x16
  | 10 => some .Bpp4_8x16
  | 11 => some .Bpp8_8x16
  | 12 => some .Bpp16_8x16
  | _ => none

/-- mode1.rs `Mode1Plane`. -/
structure Mode1Plane where
  config : Mode1Config
  format : Mode1Format
  scanline_begin : Nat
  scanline_end : Nat
  config_ptr : Nat
deriving DecidableEq, Repr

/-- mode2.rs `Mode2Config` (16 bytes in XRAM). -/
structure Mode2Config where
  x_wrap : Bool
  y_wrap : Bool
  x_pos_px : Int
  y_pos_px : Int
  width_tiles : Int
  height_tiles : Int
  xram_data_ptr : Nat
  xram_palette_ptr : Nat
  xram_tile_ptr : Nat
deriving DecidableEq, Repr

/-- mode2.rs `Mode2Config::from_xram`. -/
def Mode2Config.from_xram (xram : Nat → Nat) (ptr : Nat) : Mode2Config :=
  if ptr + 16 > 65536 then
    { x_wrap := false, y_wrap := false, x_pos_px := 0, y_pos_px := 0,
      width_tiles := 0, height_tiles := 0, xram_data_ptr := 0,
      xram_palette_ptr := 0, xram_tile_ptr := 0 }
  else
    { x_wrap := xram ptr ≠ 0
      y_wrap := xram (ptr + 1) ≠ 0
      x_pos_px := i16le (xram (ptr + 2)) (xram (ptr + 3))
      y_pos_px := i16le (xram (ptr + 4)) (xram (ptr + 5))
      width_tiles := i16le (xram (ptr + 6)) (xram (ptr + 7))
      height_tiles := i16le (xram (ptr + 8)) (xram (ptr + 9))
      xram_data_ptr := u16le (xram (ptr + 10)) (xram (ptr + 11))
      xram_palette_ptr := u16le (xram (ptr + 12)) (xram (ptr + 13))
      xram_tile_ptr := u16le (xram (ptr + 14)) (xram (ptr + 15)) }

/-- mode2.rs `Mode2Format`. -/
inductive Mode2Format where
  | Bpp1_8x8
  | Bpp2_8x8
  | Bpp4_8x8
  | Bpp8_8x8
  | Bpp1_16x16
  | Bpp2_16x16
  | Bpp4_16x16
  | Bpp8_16x16
deriving DecidableEq, Repr

/-- mode2.rs `Mode2Format::from_attr`. -/
def Mode2Format.from_attr (attr : Nat) : Option Mode2Format :=
  match attr with
  | 0 => some .Bpp1_8x8
  | 1 => some .Bpp2_8x8
  | 2 => some .Bpp4_8x8
  | 3 => some .Bpp8_8x8
  | 8 => some .Bpp1_16x16
  | 9 => some .Bpp2_16x16
  | 10 => some .Bpp4_16x16
  | 11 => some .Bpp8_16x16
  | _ => none

/-- mode2.rs tile size in pixels. -/
def Mode2Format.tile_size : Mode2Format → Int
  | .Bpp1_8x8 | .Bpp2_8x8 | .Bpp4_8x8 | .Bpp8_8x8 => 8
  | _ => 16

/-- mode2.rs bits per pixel. -/
def Mode2Format.bpp : Mode2Format → Nat
  | .Bpp1_8x8 | .Bpp1_16x16 => 1
  | .Bpp2_8x8 | .Bpp2_16x16 => 2
  | .Bpp4_8x8 | .Bpp4_16x16 => 4
  | .Bpp8_8x8 | .Bpp8_16x16 => 8

/-- mode2.rs bytes per row within a tile bitmap. -/
def Mode2Format.row_size (f : Mode2Format) : Nat :=
  if f.tile_size = 8 then f.bpp else 2 * f.bpp

/-- mode2.rs total bytes per tile. -/
def Mode2Format.tile_bytes (f : Mode2Format) : Nat :=
  f.row_size * f.tile_size.toNat

/-- mode2.rs `Mode2Plane`. -/
structure Mode2Plane where
  config : Mode2Config
  format : Mode2Format
  scanline_begin : Nat
  scanline_end : Nat
  config_ptr : Nat
deriving DecidableEq, Repr

/-- vga/mod.rs `Plane`. -/
inductive Plane where
  | Mode1 (p : Mode1Plane)
  | Mode2 (p : Mode2Plane)
  | Mode3 (p : Mode3Plane)
deriving DecidableEq, Repr

/-- vga/mod.rs `Vga` programming state: the XRAM mirror, the three plane
slots (indices 0-2), the canvas size, and the 8-entry xregs staging
array.  The channels and framebuffer are modeled as explicit outputs. -/
structure Vga where
  xram : Nat → Nat
  planes : Nat → Option Plane
  canvas_width : Nat
  canvas_height : Nat
  xregs : Nat → Nat

/-- vga/mod.rs `Vga::new` (canvas 640x480, empty planes, zero staging). -/
def Vga.new : Vga :=
  { xram := fun _ => 0
    planes := fun _ => none
    canvas_width := 640
    canvas_height := 480
    xregs := fun _ => 0 }

/-- vga/mod.rs `program_mode3`: no struct-size bound check is performed
here (unlike modes 1 and 2); `Mode3Config::from_xram` yields a zero
config when the struct would cross XRAM end, and the plane is installed
regardless. -/
def Vga.program_mode3 (v : Vga) : Vga :=
  if v.xregs 4 ≥ 3 ∨ (v.xregs 3) &&& 1 ≠ 0 then v
  else
    match ColorFormat.from_attr (v.xregs 2) with
    | none => v
    | some format =>
      { v with planes := updFn v.planes (v.xregs 4) (some (Plane.Mode3
          { config := Mode3Config.from_xram v.xram (v.xregs 3)
            format := format
            scanline_begin := v.xregs 5
            scanline_end := v.xregs 6
            config_ptr := v.xregs 3 })) }

/-- vga/mod.rs `program_mode1` (includes the 16-byte struct bound check). -/
def Vga.program_mode1 (v : Vga) : Vga :=
  if v.xregs 4 ≥ 3 ∨ (v.xregs 3) &&& 1 ≠ 0 then v
  else if v.xregs 3 + 16 > 0x10000 then v
  else
    match Mode1Format.from_attr (v.xregs 2) with
    | none => v
    | some format =>
      { v with planes := updFn v.planes (v.xregs 4) (some (Plane.Mode1
          { config := Mode1Config.from_xram v.xram (v.xregs 3)
            format := format
            scanline_begin := v.xregs 5
            scanline_end := v.xregs 6
            config_ptr := v.xregs 3 })) }

/-- vga/mod.rs `program_mode2` (includes the 16-byte struct bound check). -/
def Vga.program_mode2 (v : Vga) : Vga :=
  if v.xregs 4 ≥ 3 ∨ (v.xregs 3) &&& 1 ≠ 0 then v
  else if v.xregs 3 + 16 > 0x10000 then v
  else
    match Mode2Format.from_attr (v.xregs 2) with
    | none => v
    | some format =>
      { v with planes := updFn v.planes (v.xregs 4) (some (Plane.Mode2
          { config := Mode2Config.from_xram v.xram (v.xregs 3)
            format := format
            scanline_begin := v.xregs 5
            scanline_end := v.xregs 6
            config_ptr := v.xregs 3 })) }

/-- vga/mod.rs `handle_reg`: a PIX register write on a channel.  Returns
the updated state and the backchannel messages sent. -/
def Vga.handle_reg (v : Vga) (channel register value : Nat) : Vga × List Backchannel :=
  if channel = 0 then
    let v := if register < 8 then { v with xregs := updFn v.xregs register value } else v
    if register = 0 then
      let wh : Nat × Nat := match value with
        | 1 => (320, 240)
        | 2 => (320, 180)
        | 3 => (640, 480)
        | 4 => (640, 360)
        | _ => (640, 480)
      ({ v with canvas_width := wh.1, canvas_height := wh.2,
                planes := fun _ => none, xregs := fun _ => 0 },
        [Backchannel.Ack])
    else if register = 1 then
      if value = 1 then
        ({ v.program_mode1 with xregs := fun _ => 0 }, [Backchannel.Ack])
      else if value = 2 then
        ({ v.program_mode2 with xregs := fun _ => 0 }, [Backchannel.Ack])
      else if value = 3 then
        ({ v.program_mode3 with xregs := fun _ => 0 }, [Backchannel.Ack])
      else
        ({ v with xregs := fun _ => 0 }, [Backchannel.Nak])
    else
      (v, [])
  else
    (v, [])

theorem program_mode1_fail (v : Vga)
    (h : v.xregs 4 ≥ 3 ∨ (v.xregs 3) &&& 1 ≠ 0 ∨ v.xregs 3 + 16 > 65536 ∨
      Mode1Format.from_attr (v.xregs 2) = none) :
    v.program_mode1 = v := by
  delta Vga.program_mode1
  by_cases h1 : v.xregs 4 ≥ 3 ∨ (v.xregs 3) &&& 1 ≠ 0
  · rw [if_pos h1]
  rw [if_neg h1]
  by_cases h2 : v.xregs 3 + 16 > 0x10000
  · rw [if_pos h2]
  rw [if_neg h2]
  have hattr : Mode1Format.from_attr (v.xregs 2) = none := by
    rcases h with h | h | h | h
    · exact absurd (Or.inl h) h1
    · exact absurd (Or.inr h) h1
    · exact absurd h h2
    · exact h
  rw [hattr]

theorem program_mode2_fail (v : Vga)
    (h : v.xregs 4 ≥ 3 ∨ (v.xregs 3) &&& 1 ≠ 0 ∨ v.xregs 3 + 16 > 65536 ∨
      Mode2Format.from_attr (v.xregs 2) = none) :
    v.program_mode2 = v := by
  delta Vga.program_mode2
  by_cases h1 : v.xregs 4 ≥ 3 ∨ (v.xregs 3) &&& 1 ≠ 0
  · rw [if_pos h1]
  rw [if_neg h1]
  by_cases h2 : v.xregs 3 + 16 > 0x10000
  · rw [if_pos h2]
  rw [if_neg h2]
  have hattr : Mode2Format.from_attr (v.xregs 2) = none := by
    rcases h with h | h | h | h
    · exact absurd (Or.inl h) h1
    · exact absurd (Or.inr h) h1
    · exact absurd h h2
    · exact h
  rw [hattr]

theorem program_mode3_fail (v : Vga)
    (h : v.xregs 4 ≥ 3 ∨ (v.xregs 3) &&& 1 ≠ 0 ∨
      ColorFormat.from_attr (v.xregs 2) = none) :
    v.program_mode3 = v := by
  delta Vga.program_mode3
  by_cases h1 : v.xregs 4 ≥ 3 ∨ (v.xregs 3) &&& 1 ≠ 0
  · rw [if_pos h1]
  rw [if_neg h1]
  have hattr : ColorFormat.from_attr (v.xregs 2) = none := by
    rcases h with h | h | h
    · exact absurd (Or.inl h) h1
    · exact absurd (Or.inr h) h1
    · exact h
  rw [hattr]

/-- Staging the MODE value into `xregs[1]` does not disturb the operand
registers 2-6 read by the programmers. -/
theorem stash_xregs (v : Vga) (value k : Nat) (hk : k ≠ 1) :
    ({ v with xregs := updFn v.xregs 1 value } : Vga).xregs k = v.xregs k := by
  simp [updFn, hk]

/-- C2 (amended): for every PIX register write on channel 0 with
register 1 selecting mode 1, 2 or 3, the VGA emits `Ack` whether or not a
plane was installed; `Nak` is emitted exactly for the other MODE values.
No plane is installed when the checks the respective programmer actually
performs fail: `plane_idx ≥ 3`, odd `config_ptr`, or an invalid
attribute (for all three modes), and additionally `config_ptr + 16`
crossing XRAM end for modes 1 and 2 only (mode 3 performs no bound
check). -/
theorem C2_mode_ack_nak (v : Vga) (value : Nat) :
    (value = 1 ∨ value = 2 ∨ value = 3 →
      (v.handle_reg 0 1 value).2 = [Backchannel.Ack]) ∧
    (value = 1 →
      (v.xregs 4 ≥ 3 ∨ (v.xregs 3) &&& 1 ≠ 0 ∨ v.xregs 3 + 16 > 65536 ∨
        Mode1Format.from_attr (v.xregs 2) = none) →
      (v.handle_reg 0 1 value).1.planes = v.planes) ∧
    (value = 2 →
      (v.xregs 4 ≥ 3 ∨ (v.xregs 3) &&& 1 ≠ 0 ∨ v.xregs 3 + 16 > 65536 ∨
        Mode2Format.from_attr (v.xregs 2) = none) →
      (v.handle_reg 0 1 value).1.planes = v.planes) ∧
    (value = 3 →
      (v.xregs 4 ≥ 3 ∨ (v.xregs 3) &&& 1 ≠ 0 ∨
        ColorFormat.from_attr (v.xregs 2) = none) →
      (v.handle_reg 0 1 value).1.planes = v.planes) ∧
    (¬(value = 1 ∨ value = 2 ∨ value = 3) →
      (v.handle_reg 0 1 value).2 = [Backchannel.Nak] ∧
        (v.handle_reg 0 1 value).1.planes = v.planes) := by
  refine ⟨?_, ?_, ?_, ?_, ?_⟩
  · rintro (rfl | rfl | rfl) <;> rfl
  · rintro rfl hfail
    show (({ v with xregs := updFn v.xregs 1 1 } : Vga).program_mode1).planes = v.planes
    have hfail1 : ({ v with xregs := updFn v.xregs 1 1 } : Vga).xregs 4 ≥ 3 ∨
        (({ v with xregs := updFn v.xregs 1 1 } : Vga).xregs 3) &&& 1 ≠ 0 ∨
        ({ v with xregs := updFn v.xregs 1 1 } : Vga).xregs 3 + 16 > 65536 ∨
        Mode1Format.from_attr (({ v with xregs := updFn v.xregs 1 1 } : Vga).xregs 2)
          = none := by
      rcases hfail with h | h | h | h
      · exact Or.inl (by rw [stash_xregs v 1 4 (by decide)]; exact h)
      · exact Or.inr (Or.inl (by rw [stash_xregs v 1 3 (by decide)]; exact h))
      · exact Or.inr (Or.inr (Or.inl (by rw [stash_xregs v 1 3 (by decide)]; exact h)))
      · exact Or.inr (Or.inr (Or.inr (by rw [stash_xregs v 1 2 (by decide)]; exact h)))
    rw [program_mode1_fail _ hfail1]
  · rintro rfl hfail
    show (({ v with xregs := updFn v.xregs 1 2 } : Vga).program_mode2).planes = v.planes
    have hfail2 : ({ v with xregs := updFn v.xregs 1 2 } : Vga).xregs 4 ≥ 3 ∨
        (({ v with xregs := updFn v.xregs 1 2 } : Vga).xregs 3) &&& 1 ≠ 0 ∨
        ({ v with xregs := updFn v.xregs 1 2 } : Vga).xregs 3 + 16 > 65536 ∨
        Mode2Format.from_attr (({ v with xregs := updFn v.xregs 1 2 } : Vga).xregs 2)
          = none := by
      rcases hfail with h | h | h | h
      · exact Or.inl (by rw [stash_xregs v 2 4 (by decide)]; exact h)
      · exact Or.inr (Or.inl (by rw [stash_xregs v 2 3 (by decide)]; exact h))
      · exact Or.inr (Or.inr (Or.inl (by rw [stash_xregs v 2 3 (by decide)]; exact h)))
      · exact Or.inr (Or.inr (Or.inr (by rw [stash_xregs v 2 2 (by decide)]; exact h)))
    rw [program_mode2_fail _ hfail2]
  · rintro rfl hfail
    show (({ v with xregs := updFn v.xregs 1 3 } : Vga).program_mode3).planes = v.planes
    have hfail3 : ({ v with xregs := updFn v.xregs 1 3 } : Vga).xregs 4 ≥ 3 ∨
        (({ v with xregs := updFn v.xregs 1 3 } : Vga).xregs 3) &&& 1 ≠ 0 ∨
        ColorFormat.from_attr (({ v with xregs := updFn v.xregs 1 3 } : Vga).xregs 2)
          = none := by
      rcases hfail with h | h | h
      · exact Or.inl (by rw [stash_xregs v 3 4 (by decide)]; exact h)
      · exact Or.inr (Or.inl (by rw [stash_xregs v 3 3 (by decide)]; exact h))
      · exact Or.inr (Or.inr (by rw [stash_xregs v 3 2 (by decide)]; exact h))
    rw [program_mode3_fail _ hfail3]
  · intro hval
    push_neg at hval
    obtain ⟨h1, h2, h3⟩ := hval
    delta Vga.handle_reg
    rw [if_pos rfl, if_pos (by decide : (1 : Nat) < 8),
      if_neg (by decide : ¬(1 : Nat) = 0), if_pos rfl,
      if_neg h1, if_neg h2, if_neg h3]
    exact ⟨rfl, rfl⟩

/-- Channel-0 MODE write with an odd config pointer: no plane installed
yet the VGA acknowledges with `Ack`, never `Nak`. -/
def c2state : Vga :=
  { Vga.new with xregs := updFn Vga.new.xregs 3 1 }

theorem C2_counterexample :
    (c2state.xregs 3) &&& 1 ≠ 0 ∧
    (c2state.handle_reg 0 1 3).1.planes 0 = none ∧
    (c2state.handle_reg 0 1 3).1.planes 1 = none ∧
    (c2state.handle_reg 0 1 3).1.planes 2 = none ∧
    (c2state.handle_reg 0 1 3).2 = [Backchannel.Ack] ∧
    (c2state.handle_reg 0 1 3).2 ≠ [Backchannel.Nak] := by
  refine ⟨by decide, ?_, ?_, ?_, by rfl, by decide⟩ <;> rfl

theorem C2_witness :
    ((3 : Nat) = 1 ∨ (3 : Nat) = 2 ∨ (3 : Nat) = 3) ∧
    ((c2state.xregs 4 ≥ 3 ∨ (c2state.xregs 3) &&& 1 ≠ 0 ∨
        ColorFormat.from_attr (c2state.xregs 2) = none)) ∧
    (c2state.handle_reg 0 1 3).2 = [Backchannel.Ack] ∧
    (c2state.handle_reg 0 1 3).1.planes = c2state.planes := by
  have h := C2_mode_ack_nak c2state 3
  refine ⟨Or.inr (Or.inr rfl), Or.inr (Or.inl (by decide)), ?_, ?_⟩
  · exact h.1 (Or.inr (Or.inr rfl))
  · exact h.2.2.2.1 rfl (Or.inr (Or.inl (by decide)))

/-- C3 (amended): for MODE commands of modes 1 and 2, a config struct
that would cross XRAM end leaves the addressed plane slot unchanged; for
mode 3 no such bound check exists: when the other checks pass, a
crossing `config_ptr` still installs a Mode 3 plane whose config reads
back as all-zero. -/
theorem C3_config_crossing (v : Vga) :
    (v.xregs 3 + 16 > 65536 →
      (v.handle_reg 0 1 1).1.planes = v.planes ∧
        (v.handle_reg 0 1 2).1.planes = v.planes) ∧
    (∀ fmt : ColorFormat, v.xregs 4 < 3 → (v.xregs 3) &&& 1 = 0 →
      ColorFormat.from_attr (v.xregs 2) = some fmt →
      v.xregs 3 + 14 > 65536 →
      (v.handle_reg 0 1 3).1.planes (v.xregs 4)
        = some (Plane.Mode3
            { config := { x_wrap := false, y_wrap := false, x_pos_px := 0,
                          y_pos_px := 0, width_px := 0, height_px := 0,
                          xram_data_ptr := 0, xram_palette_ptr := 0 }
              format := fmt
              scanline_begin := v.xregs 5
              scanline_end := v.xregs 6
              config_ptr := v.xregs 3 })) := by
  constructor
  · intro hcross
    constructor
    · show (({ v with xregs := updFn v.xregs 1 1 } : Vga).program_mode1).planes
          = v.planes
      have hfail1 : ({ v with xregs := updFn v.xregs 1 1 } : Vga).xregs 4 ≥ 3 ∨
          (({ v with xregs := updFn v.xregs 1 1 } : Vga).xregs 3) &&& 1 ≠ 0 ∨
          ({ v with xregs := updFn v.xregs 1 1 } : Vga).xregs 3 + 16 > 65536 ∨
          Mode1Format.from_attr
            (({ v with xregs := updFn v.xregs 1 1 } : Vga).xregs 2) = none :=
        Or.inr (Or.inr (Or.inl (by
          rw [stash_xregs v 1 3 (by decide)]
          exact hcross)))
      rw [program_mode1_fail _ hfail1]
    · show (({ v with xregs := updFn v.xregs 1 2 } : Vga).program_mode2).planes
          = v.planes
      have hfail2 : ({ v with xregs := updFn v.xregs 1 2 } : Vga).xregs 4 ≥ 3 ∨
          (({ v with xregs := updFn v.xregs 1 2 } : Vga).xregs 3) &&& 1 ≠ 0 ∨
          ({ v with xregs := updFn v.xregs 1 2 } : Vga).xregs 3 + 16 > 65536 ∨
          Mode2Format.from_attr
            (({ v with xregs := updFn v.xregs 1 2 } : Vga).xregs 2) = none :=
        Or.inr (Or.inr (Or.inl (by
          rw [stash_xregs v 2 3 (by decide)]
          exact hcross)))
      rw [program_mode2_fail _ hfail2]
  · intro fmt hidx heven hattr hcross
    show (({ v with xregs := updFn v.xregs 1 3 } : Vga).program_mode3).planes
        (v.xregs 4) = _
    set v1 : Vga := { v with xregs := updFn v.xregs 1 3 } with hv1
    have e4 : v1.xregs 4 = v.xregs 4 := stash_xregs v 3 4 (by decide)
    have e3 : v1.xregs 3 = v.xregs 3 := stash_xregs v 3 3 (by decide)
    have e2 : v1.xregs 2 = v.xregs 2 := stash_xregs v 3 2 (by decide)
    have e5 : v1.xregs 5 = v.xregs 5 := stash_xregs v 3 5 (by decide)
    have e6 : v1.xregs 6 = v.xregs 6 := stash_xregs v 3 6 (by decide)
    delta Vga.program_mode3
    rw [if_neg ?_]
    · rw [e2, hattr]
      have hfrom : Mode3Config.from_xram v1.xram (v1.xregs 3)
          = { x_wrap := false, y_wrap := false, x_pos_px := 0, y_pos_px := 0,
              width_px := 0, height_px := 0, xram_data_ptr := 0,
              xram_palette_ptr := 0 } := by
        delta Mode3Config.from_xram
        rw [e3, if_pos (by omega)]
      rw [hfrom, e3, e4, e5, e6]
      simp [updFn]
    · rw [e3, e4]
      push_neg
      exact ⟨by omega, by omega⟩

/-- Mode-3 MODE command whose 14-byte config struct would cross XRAM end
(config pointer 0xFFF4): an empty plane slot gets filled anyway. -/
def c3state : Vga :=
  { Vga.new with xregs := updFn Vga.new.xregs 3 0xFFF4 }

theorem C3_counterexample :
    c3state.xregs 3 + 14 > 65536 ∧
    (c3state.xregs 3) &&& 1 = 0 ∧
    c3state.planes 0 = none ∧
    (c3state.handle_reg 0 1 3).1.planes 0 ≠ none := by
  refine ⟨by decide, by decide, rfl, ?_⟩
  intro h
  exact absurd h (by decide)

theorem C3_witness :
    (c3state.xregs 4 < 3 ∧ (c3state.xregs 3) &&& 1 = 0 ∧
      ColorFormat.from_attr (c3state.xregs 2) = some ColorFormat.Bpp1Msb ∧
      c3state.xregs 3 + 14 > 65536) ∧
    (c3state.handle_reg 0 1 3).1.planes (c3state.xregs 4)
      = some (Plane.Mode3
          { config := { x_wrap := false, y_wrap := false, x_pos_px := 0,
                        y_pos_px := 0, width_px := 0, height_px := 0,
                        xram_data_ptr := 0, xram_palette_ptr := 0 }
            format := ColorFormat.Bpp1Msb
            scanline_begin := c3state.xregs 5
            scanline_end := c3state.xregs 6
            config_ptr := c3state.xregs 3 }) :=
  ⟨⟨by decide, by decide, by decide, by decide⟩,
    (C3_config_crossing c3state).2 ColorFormat.Bpp1Msb (by decide) (by decide)
      (by decide) (by decide)⟩

/-! ## Plane renderers (emu/src/vga/mode3.rs, mode2.rs; claim C10) -/

/-- palette.rs `rgba`: opaque RGBA word from 8-bit channels. -/
def rgbaOf (r g b : Nat) : Nat :=
  (r <<< 24) ||| (g <<< 16) ||| (b <<< 8) ||| 0xFF

/-- palette.rs `rgba_transparent`: alpha-0 RGBA word. -/
def rgba_transparent (r g b : Nat) : Nat :=
  (r <<< 24) ||| (g <<< 16) ||| (b <<< 8)

/-- palette.rs `PALETTE_2`: transparent black and opaque light grey. -/
def PALETTE_2 : List Nat :=
  [rgba_transparent 0 0 0, rgbaOf 192 192 192]

/-- palette.rs `PALETTE_256`: the ANSI 256-color table (entry 0
transparent, 16 ANSI colors, 6x6x6 cube with levels 0/95/135/175/215/255
iterating R then G then B, then a 24-step grey ramp 8+10i). -/
def PALETTE_256 : List Nat :=
  [rgba_transparent 0 0 0,
   rgbaOf 205 0 0, rgbaOf 0 205 0, rgbaOf 205 205 0, rgbaOf 0 0 238,
   rgbaOf 205 0 205, rgbaOf 0 205 205, rgbaOf 229 229 229,
   rgbaOf 127 127 127, rgbaOf 255 0 0, rgbaOf 0 255 0, rgbaOf 255 255 0,
   rgbaOf 92 92 255, rgbaOf 255 0 255, rgbaOf 0 255 255, rgbaOf 255 255 255]
  ++ ([0, 95, 135, 175, 215, 255].flatMap fun r =>
        [0, 95, 135, 175, 215, 255].flatMap fun g =>
          [0, 95, 135, 175, 215, 255].map fun b => rgbaOf r g b)
  ++ (List.range 24).map (fun g => rgbaOf (8 + g * 10) (8 + g * 10) (8 + g * 10))

/-- mode3.rs `resolve_palette` (local to mode3.rs): custom XRAM palette
when the pointer is even, nonzero and in bounds; otherwise `PALETTE_2`
for 1 bpp and a `count`-entry prefix of `PALETTE_256` for the other
indexed depths. -/
def mode3_resolve_palette (xram : Nat → Nat) (format : ColorFormat)
    (palette_ptr : Nat) : List Nat :=
  match format with
  | .Bpp16 => []
  | .Bpp1Msb | .Bpp1Lsb =>
    if palette_ptr &&& 1 = 0 ∧ palette_ptr > 0 ∧ palette_ptr + 2 * 2 ≤ 0x10000 then
      (List.range 2).map (fun i =>
        rgb565_to_rgba (u16le (xram (palette_ptr + i * 2)) (xram (palette_ptr + i * 2 + 1))))
    else
      PALETTE_2
  | _ =>
    let count := 1 <<< format.bits_per_pixel
    if palette_ptr &&& 1 = 0 ∧ palette_ptr > 0 ∧ palette_ptr + count * 2 ≤ 0x10000 then
      (List.range count).map (fun i =>
        rgb565_to_rgba (u16le (xram (palette_ptr + i * 2)) (xram (palette_ptr + i * 2 + 1))))
    else
      PALETTE_256.take count

/-- Modelled from the spec: the shared `resolve_palette` used by the
mode 1 and mode 2 renderers lives in vga/palette.rs, which is absent
from the provided sources (mode1.rs and mode2.rs import it).  Per spec
section 4.7: a caller palette at `palette_ptr` (little-endian RGB565,
`count = 2^bpp` entries) is used when the pointer is nonzero, even and
within XRAM; otherwise 1 bpp falls back to `PALETTE_2` and the other
indexed depths to `PALETTE_256`. -/
def resolve_palette (xram : Nat → Nat) (bpp : Nat) (palette_ptr : Nat) : List Nat :=
  let count := 1 <<< bpp
  if palette_ptr &&& 1 = 0 ∧ palette_ptr > 0 ∧ palette_ptr + count * 2 ≤ 0x10000 then
    (List.range count).map (fun i =>
      rgb565_to_rgba (u16le (xram (palette_ptr + i * 2)) (xram (palette_ptr + i * 2 + 1))))
  else if bpp = 1 then
    PALETTE_2
  else
    PALETTE_256.take count

/-- mode3.rs `get_pixel`: extract a palette index from bitmap data.  The
Rust slice `&xram[row_offset..]` is modeled by passing `row_offset`. -/
def get_pixel (xram : Nat → Nat) (row_offset col : Nat) (format : ColorFormat) : Nat :=
  match format with
  | .Bpp8 => xram (row_offset + col)
  | .Bpp4Msb =>
    if col % 2 = 0 then xram (row_offset + col / 2) >>> 4
    else xram (row_offset + col / 2) &&& 0x0F
  | .Bpp4Lsb =>
    if col % 2 = 0 then xram (row_offset + col / 2) &&& 0x0F
    else xram (row_offset + col / 2) >>> 4
  | .Bpp2Msb => (xram (row_offset + col / 4) >>> (6 - col % 4 * 2)) &&& 0x03
  | .Bpp2Lsb => (xram (row_offset + col / 4) >>> (col % 4 * 2)) &&& 0x03
  | .Bpp1Msb => (xram (row_offset + col / 8) >>> (7 - col % 8)) &&& 0x01
  | .Bpp1Lsb => (xram (row_offset + col / 8) >>> (col % 8)) &&& 0x01
  | .Bpp16 => 0

/-- The scanline-to-bitmap-row computation of `render_mode3` (offset by
`y_pos`, wrapped with `rem_euclid` when `y_wrap`). -/
def mode3_row_of (cfg : Mode3Config) (scanline : Nat) : Int :=
  let row := (scanline : Int) - cfg.y_pos_px
  if cfg.y_wrap then row.emod cfg.height_px else row

/-- The column computation of `render_mode3`. -/
def mode3_col_of (cfg : Mode3Config) (screen_x : Nat) : Int :=
  let col := (screen_x : Int) - cfg.x_pos_px
  if cfg.x_wrap then col.emod cfg.width_px else col

/-- The per-pixel color resolution of `render_mode3`: direct RGB565 for
Bpp16 (with its bounds check), otherwise a palette lookup that yields 0
(transparent) when the decoded index is at or past the palette length. -/
def mode3_rgba_at (format : ColorFormat) (pal : List Nat) (xram : Nat → Nat)
    (row_offset col : Nat) : Nat :=
  if format = ColorFormat.Bpp16 then
    if row_offset + col * 2 + 1 < 0x10000 then
      rgb565_to_rgba (u16le (xram (row_offset + col * 2)) (xram (row_offset + col * 2 + 1)))
    else 0
  else
    let idx := get_pixel xram row_offset col format
    if idx < pal.length then pal.getD idx 0 else 0

/-- The inner column loop of `render_mode3` over one scanline. -/
def mode3_render_cols (plane : Mode3Plane) (pal : List Nat) (xram : Nat → Nat)
    (row_offset scanline canvas_width : Nat) (fb : Nat → Nat) : Nat → Nat :=
  (List.range canvas_width).foldl (fun fb screen_x =>
    let col := mode3_col_of plane.config screen_x
    if col < 0 ∨ col ≥ plane.config.width_px then fb
    else
      let rgba := mode3_rgba_at plane.format pal xram row_offset col.toNat
      if rgba &&& 0xFF ≠ 0 then
        updFn fb (scanline * canvas_width + screen_x) rgba
      else fb) fb

/-- mode3.rs `render_mode3`: bitmap plane renderer over the canvas
buffer (modeled as an index-addressed map of RGBA words). -/
def render_mode3 (plane : Mode3Plane) (xram : Nat → Nat) (fb : Nat → Nat)
    (canvas_width canvas_height : Nat) : Nat → Nat :=
  if plane.config.width_px < 1 ∨ plane.config.height_px < 1 then fb
  else
    let sizeof_row := (plane.config.width_px.toNat * plane.format.bits_per_pixel + 7) / 8
    if plane.config.height_px.toNat * sizeof_row
        > 0x10000 - plane.config.xram_data_ptr then fb
    else
      let pal := mode3_resolve_palette xram plane.format plane.config.xram_palette_ptr
      let y_end := if plane.scanline_end = 0 then canvas_height else plane.scanline_end
      (List.range (y_end - plane.scanline_begin)).foldl (fun fb k =>
        let scanline := plane.scanline_begin + k
        if scanline ≥ canvas_height then fb
        else
          let row := mode3_row_of plane.config scanline
          if row < 0 ∨ row ≥ plane.config.height_px then fb
          else
            mode3_render_cols plane pal xram
              (plane.config.xram_data_ptr + row.toNat * sizeof_row)
              scanline canvas_width fb) fb

/-- The decoded palette index of canvas pixel `(sx, sl)` in a Mode 3
plane, following the renderer's own row/column computation; `none` when
the pixel falls outside the (possibly wrapped) bitmap. -/
def mode3_pixel_index (plane : Mode3Plane) (xram : Nat → Nat) (sx sl : Nat) :
    Option Nat :=
  let row := mode3_row_of plane.config sl
  let col := mode3_col_of plane.config sx
  if row < 0 ∨ row ≥ plane.config.height_px ∨ col < 0 ∨ col ≥ plane.config.width_px then
    none
  else
    let sizeof_row := (plane.config.width_px.toNat * plane.format.bits_per_pixel + 7) / 8
    some (get_pixel xram (plane.config.xram_data_ptr + row.toNat * sizeof_row)
      col.toNat plane.format)

/-- mode2.rs `get_tile_pixel`: MSB-first extraction of a palette index
from one tile bitmap byte. -/
def get_tile_pixel (tile_byte pixel_in_byte bpp : Nat) : Nat :=
  match bpp with
  | 1 => (tile_byte >>> (7 - pixel_in_byte)) &&& 1
  | 2 => (tile_byte >>> (6 - pixel_in_byte * 2)) &&& 0x03
  | 4 => if pixel_in_byte = 0 then tile_byte >>> 4 else tile_byte &&& 0x0F
  | 8 => tile_byte
  | _ => 0

/-- `render_mode2`'s plane height in pixels (`height_tiles * tile_size`). -/
def mode2_height_px (plane : Mode2Plane) : Int :=
  plane.config.height_tiles * plane.format.tile_size

/-- `render_mode2`'s plane width in pixels (`width_tiles * tile_size`). -/
def mode2_width_px (plane : Mode2Plane) : Int :=
  plane.config.width_tiles * plane.format.tile_size

/-- The scanline-to-row computation of `render_mode2`. -/
def mode2_row_of (plane : Mode2Plane) (scanline : Nat) : Int :=
  let row := (scanline : Int) - plane.config.y_pos_px
  if plane.config.y_wrap then row.emod (mode2_height_px plane) else row

/-- The column computation of `render_mode2`. -/
def mode2_col_of (plane : Mode2Plane) (screen_x : Nat) : Int :=
  let col := (screen_x : Int) - plane.config.x_pos_px
  if plane.config.x_wrap then col.emod (mode2_width_px plane) else col

/-- `render_mode2`'s tile-map address for bitmap row/column `rowN`/`colN`
(`xram_data_ptr + tile_row * width_tiles + tile_col`). -/
def mode2_map_offset (plane : Mode2Plane) (rowN colN : Nat) : Nat :=
  plane.config.xram_data_ptr
    + rowN / plane.format.tile_size.toNat * plane.config.width_tiles.toNat
    + colN / plane.format.tile_size.toNat

/-- `render_mode2`'s tile-bitmap byte address
(`xram_tile_ptr + tile_id * tile_bytes + within_tile_row * row_size + byte_col`). -/
def mode2_tile_addr (plane : Mode2Plane) (xram : Nat → Nat) (rowN colN : Nat) : Nat :=
  plane.config.xram_tile_ptr
    + xram (mode2_map_offset plane rowN colN) * plane.format.tile_bytes
    + (rowN &&& (plane.format.tile_size.toNat - 1)) * plane.format.row_size
    + (colN &&& (plane.format.tile_size.toNat - 1)) / (8 / plane.format.bpp)

/-- `render_mode2`'s sub-byte pixel position
(`pixel_in_tile_col % pixels_per_byte`). -/
def mode2_pixel_in_byte (plane : Mode2Plane) (colN : Nat) : Nat :=
  (colN &&& (plane.format.tile_size.toNat - 1)) % (8 / plane.format.bpp)

/-- The per-pixel color resolution of `render_mode2` at a validated
bitmap row/column.  The source's `continue` on an out-of-range tile-map
or tile-bitmap address is modeled as color 0, which has the same effect
on the framebuffer since writes require nonzero alpha.  An index at or
past the palette length resolves to 0 (transparent). -/
def mode2_rgba_at (plane : Mode2Plane) (pal : List Nat) (xram : Nat → Nat)
    (rowN colN : Nat) : Nat :=
  if mode2_map_offset plane rowN colN ≥ 0x10000 then 0
  else if mode2_tile_addr plane xram rowN colN ≥ 0x10000 then 0
  else
    let pixel_idx := get_tile_pixel (xram (mode2_tile_addr plane xram rowN colN))
      (mode2_pixel_in_byte plane colN) plane.format.bpp
    if pixel_idx < pal.length then pal.getD pixel_idx 0 else 0

/-- The inner column loop of `render_mode2` over one scanline. -/
def mode2_render_cols (plane : Mode2Plane) (pal : List Nat) (xram : Nat → Nat)
    (rowN scanline canvas_width : Nat) (fb : Nat → Nat) : Nat → Nat :=
  (List.range canvas_width).foldl (fun fb screen_x =>
    let col := mode2_col_of plane screen_x
    if col < 0 ∨ col ≥ mode2_width_px plane then fb
    else
      let rgba := mode2_rgba_at plane pal xram rowN col.toNat
      if rgba &&& 0xFF ≠ 0 then
        updFn fb (scanline * canvas_width + screen_x) rgba
      else fb) fb

/-- mode2.rs `render_mode2`: tile plane renderer over the canvas buffer. -/
def render_mode2 (plane : Mode2Plane) (xram : Nat → Nat) (fb : Nat → Nat)
    (canvas_width canvas_height : Nat) : Nat → Nat :=
  if plane.config.width_tiles < 1 ∨ plane.config.height_tiles < 1 then fb
  else if plane.config.height_tiles.toNat * plane.config.width_tiles.toNat
      > 0x10000 - plane.config.xram_data_ptr then fb
  else
    let pal := resolve_palette xram plane.format.bpp plane.config.xram_palette_ptr
    let y_end := if plane.scanline_end = 0 then canvas_height else plane.scanline_end
    (List.range (y_end - plane.scanline_begin)).foldl (fun fb k =>
      let scanline := plane.scanline_begin + k
      if scanline ≥ canvas_height then fb
      else
        let row := mode2_row_of plane scanline
        if row < 0 ∨ row ≥ mode2_height_px plane then fb
        else
          mode2_render_cols plane pal xram row.toNat scanline canvas_width fb) fb

/-- The decoded palette index of canvas pixel `(sx, sl)` in a Mode 2
plane, following the renderer's own computations; `none` when the pixel
is skipped before the palette lookup. -/
def mode2_pixel_index (plane : Mode2Plane) (xram : Nat → Nat) (sx sl : Nat) :
    Option Nat :=
  let row := mode2_row_of plane sl
  let col := mode2_col_of plane sx
  if row < 0 ∨ row ≥ mode2_height_px plane ∨ col < 0 ∨ col ≥ mode2_width_px plane then
    none
  else if mode2_map_offset plane row.toNat col.toNat ≥ 0x10000 then none
  else if mode2_tile_addr plane xram row.toNat col.toNat ≥ 0x10000 then none
  else
    some (get_tile_pixel (xram (mode2_tile_addr plane xram row.toNat col.toNat))
      (mode2_pixel_in_byte plane col.toNat) plane.format.bpp)

/-- A fold preserves a framebuffer entry that no step touches. -/
lemma foldl_preserve_at {β : Type} (l : List Nat) (g : (Nat → β) → Nat → (Nat → β)) (i : Nat) :
    (∀ fb x, x ∈ l → g fb x i = fb i) → ∀ fb : Nat → β, (l.foldl g fb) i = fb i := by
  induction l with
  | nil => intro _ fb; rfl
  | cons a t ih =>
    intro h fb
    simp only [List.foldl_cons]
    rw [ih (fun fb x hx => h fb x (List.mem_cons_of_mem a hx)) (g fb a),
      h fb a (List.mem_cons_self a t)]

/-- Row-major canvas indices are injective when columns stay in range. -/
lemma grid_index_inj (a b x y w : Nat) (hx : x < w) (hy : y < w)
    (h : a * w + x = b * w + y) : a = b ∧ x = y := by
  have hx' : (a * w + x) % w = x := by
    rw [Nat.add_comm, Nat.add_mul_mod_self_right, Nat.mod_eq_of_lt hx]
  have hy' : (b * w + y) % w = y := by
    rw [Nat.add_comm, Nat.add_mul_mod_self_right, Nat.mod_eq_of_lt hy]
  have hxy : x = y := by rw [← hx', ← hy', h]
  refine ⟨?_, hxy⟩
  have hw : 0 < w := Nat.lt_of_le_of_lt (Nat.zero_le x) hx
  have hab : a * w = b * w := by omega
  exact Nat.eq_of_mul_eq_mul_right hw hab

/-- A scanline's fold of conditional single-pixel writes leaves a canvas
entry on another scanline, or one whose color resolves to 0 on the same
scanline, unchanged. -/
lemma cols_foldl_preserve (cw scanline sl sx : Nat) (P : Nat → Prop) [DecidablePred P]
    (c : Nat → Nat) (hsx : sx < cw)
    (hne : scanline ≠ sl ∨ (¬ P sx → c sx &&& 0xFF = 0)) (fb : Nat → Nat) :
    (List.range cw).foldl (fun fb x => if P x then fb
      else if c x &&& 0xFF ≠ 0 then updFn fb (scanline * cw + x) (c x) else fb) fb
      (sl * cw + sx) = fb (sl * cw + sx) := by
  refine foldl_preserve_at _ _ _ (fun fb x hx => ?_) fb
  have hxlt : x < cw := List.mem_range.mp hx
  by_cases hp : P x
  · rw [if_pos hp]
  · rw [if_neg hp]
    by_cases ha : c x &&& 0xFF ≠ 0
    · rw [if_pos ha]
      by_cases hix : sl * cw + sx = scanline * cw + x
      · obtain ⟨hab, hxy⟩ := grid_index_inj sl scanline sx x cw hsx hxlt hix
        cases hne with
        | inl h => exact absurd hab.symm h
        | inr h =>
          subst hxy
          exact absurd (h hp) ha
      · show updFn fb (scanline * cw + x) (c x) (sl * cw + sx) = fb (sl * cw + sx)
        simp only [updFn]
        rw [if_neg hix]
    · rw [if_neg ha]

/-- A pixel index at or past the resolved palette length resolves to
transparent (0) in the Mode 3 per-pixel color computation. -/
lemma mode3_rgba_at_zero (format : ColorFormat) (pal : List Nat) (xram : Nat → Nat)
    (ro col : Nat) (hfmt : format ≠ ColorFormat.Bpp16)
    (hlen : pal.length ≤ get_pixel xram ro col format) :
    mode3_rgba_at format pal xram ro col = 0 := by
  delta mode3_rgba_at
  rw [if_neg hfmt]
  simp only []
  rw [if_neg (Nat.not_lt.mpr hlen)]

/-- A pixel index at or past the resolved palette length resolves to
transparent (0) in the Mode 2 per-pixel color computation. -/
lemma mode2_rgba_at_zero (plane : Mode2Plane) (pal : List Nat) (xram : Nat → Nat)
    (rowN colN : Nat)
    (hlen : pal.length ≤ get_tile_pixel (xram (mode2_tile_addr plane xram rowN colN))
      (mode2_pixel_in_byte plane colN) plane.format.bpp) :
    mode2_rgba_at plane pal xram rowN colN = 0 := by
  delta mode2_rgba_at
  by_cases hmap : mode2_map_offset plane rowN colN ≥ 0x10000
  · rw [if_pos hmap]
  · rw [if_neg hmap]
    by_cases htile : mode2_tile_addr plane xram rowN colN ≥ 0x10000
    · rw [if_pos htile]
    · rw [if_neg htile]
      simp only []
      rw [if_neg (Nat.not_lt.mpr hlen)]

/-- The Mode 3 column loop leaves a canvas entry unchanged when it is on
another scanline or its resolved color is 0. -/
lemma mode3_render_cols_preserve (plane : Mode3Plane) (pal : List Nat) (xram : Nat → Nat)
    (ro scanline cw sl sx : Nat) (hsx : sx < cw)
    (hne : scanline ≠ sl ∨
      mode3_rgba_at plane.format pal xram ro (mode3_col_of plane.config sx).toNat = 0)
    (fb : Nat → Nat) :
    mode3_render_cols plane pal xram ro scanline cw fb (sl * cw + sx) = fb (sl * cw + sx) := by
  delta mode3_render_cols
  show (List.range cw).foldl (fun fb x =>
      if mode3_col_of plane.config x < 0 ∨ mode3_col_of plane.config x ≥ plane.config.width_px
      then fb
      else if mode3_rgba_at plane.format pal xram ro (mode3_col_of plane.config x).toNat
          &&& 0xFF ≠ 0 then
        updFn fb (scanline * cw + x)
          (mode3_rgba_at plane.format pal xram ro (mode3_col_of plane.config x).toNat)
      else fb) fb (sl * cw + sx) = fb (sl * cw + sx)
  refine cols_foldl_preserve cw scanline sl sx _ _ hsx ?_ fb
  cases hne with
  | inl h => exact Or.inl h
  | inr h =>
    refine Or.inr (fun _ => ?_)
    rw [h]
    decide

/-- The Mode 2 column loop leaves a canvas entry unchanged when it is on
another scanline or its resolved color is 0. -/
lemma mode2_render_cols_preserve (plane : Mode2Plane) (pal : List Nat) (xram : Nat → Nat)
    (rowN scanline cw sl sx : Nat) (hsx : sx < cw)
    (hne : scanline ≠ sl ∨
      mode2_rgba_at plane pal xram rowN (mode2_col_of plane sx).toNat = 0)
    (fb : Nat → Nat) :
    mode2_render_cols plane pal xram rowN scanline cw fb (sl * cw + sx) = fb (sl * cw + sx) := by
  delta mode2_render_cols
  show (List.range cw).foldl (fun fb x =>
      if mode2_col_of plane x < 0 ∨ mode2_col_of plane x ≥ mode2_width_px plane
      then fb
      else if mode2_rgba_at plane pal xram rowN (mode2_col_of plane x).toNat &&& 0xFF ≠ 0 then
        updFn fb (scanline * cw + x)
          (mode2_rgba_at plane pal xram rowN (mode2_col_of plane x).toNat)
      else fb) fb (sl * cw + sx) = fb (sl * cw + sx)
  refine cols_foldl_preserve cw scanline sl sx _ _ hsx ?_ fb
  cases hne with
  | inl h => exact Or.inl h
  | inr h =>
    refine Or.inr (fun _ => ?_)
    rw [h]
    decide

/-- Unfolding `mode3_pixel_index` on a `some` result. -/
lemma mode3_pixel_index_some (plane : Mode3Plane) (xram : Nat → Nat) (sx sl idx : Nat)
    (h : mode3_pixel_index plane xram sx sl = some idx) :
    get_pixel xram (plane.config.xram_data_ptr +
        (mode3_row_of plane.config sl).toNat *
          ((plane.config.width_px.toNat * plane.format.bits_per_pixel + 7) / 8))
      (mode3_col_of plane.config sx).toNat plane.format = idx := by
  delta mode3_pixel_index at h
  simp only [] at h
  by_cases hck : mode3_row_of plane.config sl < 0 ∨
      mode3_row_of plane.config sl ≥ plane.config.height_px ∨
      mode3_col_of plane.config sx < 0 ∨ mode3_col_of plane.config sx ≥ plane.config.width_px
  · rw [if_pos hck] at h
    exact absurd h (by simp)
  · rw [if_neg hck] at h
    exact Option.some.inj h

/-- Unfolding `mode2_pixel_index` on a `some` result. -/
lemma mode2_pixel_index_some (plane : Mode2Plane) (xram : Nat → Nat) (sx sl idx : Nat)
    (h : mode2_pixel_index plane xram sx sl = some idx) :
    get_tile_pixel
      (xram (mode2_tile_addr plane xram (mode2_row_of plane sl).toNat
        (mode2_col_of plane sx).toNat))
      (mode2_pixel_in_byte plane (mode2_col_of plane sx).toNat) plane.format.bpp = idx := by
  delta mode2_pixel_index at h
  simp only [] at h
  by_cases h1 : mode2_row_of plane sl < 0 ∨ mode2_row_of plane sl ≥ mode2_height_px plane ∨
      mode2_col_of plane sx < 0 ∨ mode2_col_of plane sx ≥ mode2_width_px plane
  · rw [if_pos h1] at h
    exact absurd h (by simp)
  · rw [if_neg h1] at h
    by_cases h2 : mode2_map_offset plane (mode2_row_of plane sl).toNat
        (mode2_col_of plane sx).toNat ≥ 0x10000
    · rw [if_pos h2] at h
      exact absurd h (by simp)
    · rw [if_neg h2] at h
      by_cases h3 : mode2_tile_addr plane xram (mode2_row_of plane sl).toNat
          (mode2_col_of plane sx).toNat ≥ 0x10000
      · rw [if_pos h3] at h
        exact absurd h (by simp)
      · rw [if_neg h3] at h
        exact Option.some.inj h

/-- `render_mode3` leaves a canvas entry unchanged when the decoded
palette index of its pixel is at or past the resolved palette length. -/
lemma mode3_unchanged (plane : Mode3Plane) (xram : Nat → Nat) (fb : Nat → Nat)
    (cw ch sx sl idx : Nat)
    (hfmt : plane.format ≠ ColorFormat.Bpp16) (hsx : sx < cw)
    (hpi : mode3_pixel_index plane xram sx sl = some idx)
    (hlen : (mode3_resolve_palette xram plane.format plane.config.xram_palette_ptr).length
      ≤ idx) :
    render_mode3 plane xram fb cw ch (sl * cw + sx) = fb (sl * cw + sx) := by
  have hgp := mode3_pixel_index_some plane xram sx sl idx hpi
  delta render_mode3
  by_cases h1 : plane.config.width_px < 1 ∨ plane.config.height_px < 1
  · rw [if_pos h1]
  · rw [if_neg h1]
    simp only []
    by_cases h2 : plane.config.height_px.toNat *
        ((plane.config.width_px.toNat * plane.format.bits_per_pixel + 7) / 8)
        > 0x10000 - plane.config.xram_data_ptr
    · rw [if_pos h2]
    · rw [if_neg h2]
      refine foldl_preserve_at _ _ _ (fun fb k _ => ?_) fb
      by_cases h3 : plane.scanline_begin + k ≥ ch
      · rw [if_pos h3]
      · rw [if_neg h3]
        by_cases h4 : mode3_row_of plane.config (plane.scanline_begin + k) < 0 ∨
            mode3_row_of plane.config (plane.scanline_begin + k) ≥ plane.config.height_px
        · rw [if_pos h4]
        · rw [if_neg h4]
          refine mode3_render_cols_preserve plane _ xram _ _ cw sl sx hsx ?_ fb
          by_cases heq : plane.scanline_begin + k = sl
          · refine Or.inr ?_
            rw [heq]
            refine mode3_rgba_at_zero plane.format _ xram _ _ hfmt ?_
            rw [hgp]
            exact hlen
          · exact Or.inl heq

/-- `render_mode2` leaves a canvas entry unchanged when the decoded
palette index of its pixel is at or past the resolved palette length. -/
lemma mode2_unchanged (plane : Mode2Plane) (xram : Nat → Nat) (fb : Nat → Nat)
    (cw ch sx sl idx : Nat)
    (hsx : sx < cw)
    (hpi : mode2_pixel_index plane xram sx sl = some idx)
    (hlen : (resolve_palette xram plane.format.bpp plane.config.xram_palette_ptr).length
      ≤ idx) :
    render_mode2 plane xram fb cw ch (sl * cw + sx) = fb (sl * cw + sx) := by
  have hgp := mode2_pixel_index_some plane xram sx sl idx hpi
  delta render_mode2
  by_cases h1 : plane.config.width_tiles < 1 ∨ plane.config.height_tiles < 1
  · rw [if_pos h1]
  · rw [if_neg h1]
    by_cases h2 : plane.config.height_tiles.toNat * plane.config.width_tiles.toNat
        > 0x10000 - plane.config.xram_data_ptr
    · rw [if_pos h2]
    · rw [if_neg h2]
      simp only []
      refine foldl_preserve_at _ _ _ (fun fb k _ => ?_) fb
      by_cases h3 : plane.scanline_begin + k ≥ ch
      · rw [if_pos h3]
      · rw [if_neg h3]
        by_cases h4 : mode2_row_of plane (plane.scanline_begin + k) < 0 ∨
            mode2_row_of plane (plane.scanline_begin + k) ≥ mode2_height_px plane
        · rw [if_pos h4]
        · rw [if_neg h4]
          refine mode2_render_cols_preserve plane _ xram _ _ cw sl sx hsx ?_ fb
          by_cases heq : plane.scanline_begin + k = sl
          · refine Or.inr ?_
            rw [heq]
            refine mode2_rgba_at_zero plane _ xram _ _ ?_
            rw [hgp]
            exact hlen
          · exact Or.inl heq

/-- **C10.** In the Mode 2 and Mode 3 renderers, every pixel whose
decoded palette index is greater than or equal to the length of the
resolved palette is treated as fully transparent: the resolved color is
0 (the out-of-range index is never used to read the palette), and the
canvas entry for that pixel is left unchanged by the renderer. -/
theorem C10_palette_guard :
    (∀ (format : ColorFormat) (pal : List Nat) (xram : Nat → Nat) (ro col : Nat),
      format ≠ ColorFormat.Bpp16 →
      pal.length ≤ get_pixel xram ro col format →
      mode3_rgba_at format pal xram ro col = 0)
    ∧ (∀ (plane : Mode2Plane) (pal : List Nat) (xram : Nat → Nat) (rowN colN : Nat),
      pal.length ≤ get_tile_pixel (xram (mode2_tile_addr plane xram rowN colN))
        (mode2_pixel_in_byte plane colN) plane.format.bpp →
      mode2_rgba_at plane pal xram rowN colN = 0)
    ∧ (∀ (plane : Mode3Plane) (xram fb : Nat → Nat) (cw ch sx sl idx : Nat),
      plane.format ≠ ColorFormat.Bpp16 → sx < cw →
      mode3_pixel_index plane xram sx sl = some idx →
      (mode3_resolve_palette xram plane.format plane.config.xram_palette_ptr).length ≤ idx →
      render_mode3 plane xram fb cw ch (sl * cw + sx) = fb (sl * cw + sx))
    ∧ (∀ (plane : Mode2Plane) (xram fb : Nat → Nat) (cw ch sx sl idx : Nat),
      sx < cw →
      mode2_pixel_index plane xram sx sl = some idx →
      (resolve_palette xram plane.format.bpp plane.config.xram_palette_ptr).length ≤ idx →
      render_mode2 plane xram fb cw ch (sl * cw + sx) = fb (sl * cw + sx)) := by
  refine ⟨?_, ?_, ?_, ?_⟩
  · exact fun format pal xram ro col hfmt hlen =>
      mode3_rgba_at_zero format pal xram ro col hfmt hlen
  · exact fun plane pal xram rowN colN hlen =>
      mode2_rgba_at_zero plane pal xram rowN colN hlen
  · exact fun plane xram fb cw ch sx sl idx hfmt hsx hpi hlen =>
      mode3_unchanged plane xram fb cw ch sx sl idx hfmt hsx hpi hlen
  · exact fun plane xram fb cw ch sx sl idx hsx hpi hlen =>
      mode2_unchanged plane xram fb cw ch sx sl idx hsx hpi hlen

/-- XRAM contents for the C10 witness: every byte reads as 300, an
out-of-range palette index for every indexed depth. -/
def c10xram : Nat → Nat := fun _ => 300

/-- Concrete Mode 3 plane for the C10 witness: 2x2 8bpp bitmap at XRAM 0
with an odd palette pointer (built-in 256-entry palette). -/
def c10plane3 : Mode3Plane where
  config := { x_wrap := false, y_wrap := false, x_pos_px := 0, y_pos_px := 0,
              width_px := 2, height_px := 2, xram_data_ptr := 0,
              xram_palette_ptr := 1 }
  format := ColorFormat.Bpp8
  scanline_begin := 0
  scanline_end := 0
  config_ptr := 0

/-- Concrete Mode 2 plane for the C10 witness: 1x1 tile map of 8bpp 8x8
tiles at XRAM 0 with an odd palette pointer. -/
def c10plane2 : Mode2Plane where
  config := { x_wrap := false, y_wrap := false, x_pos_px := 0, y_pos_px := 0,
              width_tiles := 1, height_tiles := 1, xram_data_ptr := 0,
              xram_palette_ptr := 1, xram_tile_ptr := 0 }
  format := Mode2Format.Bpp8_8x8
  scanline_begin := 0
  scanline_end := 0
  config_ptr := 0

/-- Witness for C10 at concrete inputs. -/
theorem C10_witness :
    mode3_rgba_at ColorFormat.Bpp8 [] c10xram 0 0 = 0
    ∧ mode2_rgba_at c10plane2 [] c10xram 0 0 = 0
    ∧ render_mode3 c10plane3 c10xram (fun _ => 7) 2 2 (1 * 2 + 1) = (fun _ : Nat => 7) (1 * 2 + 1)
    ∧ render_mode2 c10plane2 c10xram (fun _ => 7) 2 2 (1 * 2 + 1) = (fun _ : Nat => 7) (1 * 2 + 1) := by
  refine ⟨?_, ?_, ?_, ?_⟩
  · exact C10_palette_guard.1 ColorFormat.Bpp8 [] c10xram 0 0 (by decide) (by decide)
  · exact C10_palette_guard.2.1 c10plane2 [] c10xram 0 0 (by decide)
  · exact C10_palette_guard.2.2.1 c10plane3 c10xram (fun _ => 7) 2 2 1 1 300
      (by decide) (by decide) (by decide) (by decide)
  · exact C10_palette_guard.2.2.2 c10plane2 c10xram (fun _ => 7) 2 2 1 1 300
      (by decide) (by decide) (by decide)
